import Mathlib

/-!
# The GameLift fleet resource (`aws/resource_aws_gamelift_fleet.go`)

A shallow embedding of the four lifecycle functions of the resource
(`Create`, `Read`, `Update`, `Delete`), of the closure handed to the state
poller and of the translators between configuration values and SDK structures,
followed by the properties established about them.

Conventions of the embedding:

* a Go pointer `*T` is an `Option T` (`none` is the nil pointer);
* a Go slice is a `Slice`, an optional list (`none` is the nil slice), so that
  "field left out of the request" and "explicit empty list" stay distinct;
* a Go `interface{}` holding configuration data is a `Value`;
* a run-time panic (failed type assertion, nil dereference) is the `error`
  side of `Except Panic`;
* the remote service is a record of state-passing functions over an arbitrary
  state type `σ`;
* functions the file calls but does not define (`expandStringList`,
  `flattenStringList`, `StateChangeConf.WaitForState`) are parameters,
  collected in `Deps`.
-/

namespace GameliftFleet

/-! ## Go run-time values -/

/-- Run-time panics the code can raise. -/
inductive Panic where
  /-- A failed type assertion `x.(T)`. -/
  | typeAssertion
  /-- A dereference `*p` or field access `p.f` through a nil pointer. -/
  | nilDereference
  /-- An index expression outside the bounds of its slice. -/
  | indexOutOfRange
  deriving DecidableEq, Repr

/-- Go `error` values that occur in the file. -/
inductive GoError where
  /-- An error returned by a call of the SDK client. -/
  | sdk (code : String) (message : String)
  /-- The error built by
  `fmt.Errorf("Expected exactly 1 Gamelift fleet, found %d under %q", n, id)`,
  kept as its two arguments. -/
  | notExactlyOne (found : Nat) (id : String)
  /-- The error of `d.Set` for a key that the schema does not declare. -/
  | invalidAddress (key : String)
  /-- The error of `d.Set` for a value that does not fit the declared type. -/
  | wrongType (key : String)
  /-- An error produced by the poller itself (timeout, unexpected state). -/
  | wait (message : String)
  deriving DecidableEq, Repr

/-- Scalars that an `interface{}` holds in this file; `nil` is the nil interface. -/
inductive Atom where
  | nil
  | str (s : String)
  | int (n : Int)
  | int64 (n : Int)
  deriving DecidableEq, Repr

/-- An element of a `[]interface{}`: a scalar or a `map[string]interface{}`
(kept as an association list, looked up by key). -/
inductive Item where
  | atom (a : Atom)
  | map (m : List (String × Atom))
  deriving DecidableEq, Repr

/-- An `interface{}` as returned by `d.Get` or passed to `d.Set`. -/
inductive Value where
  | item (i : Item)
  | list (xs : List Item)
  deriving DecidableEq, Repr

/-- The nil interface value. -/
@[match_pattern] def Value.nil : Value := .item (.atom .nil)

/-- A Go string held in an interface. -/
@[match_pattern] def Value.str (s : String) : Value := .item (.atom (.str s))

/-- A Go int held in an interface. -/
@[match_pattern] def Value.int (n : Int) : Value := .item (.atom (.int n))

/-- A Go map held in an interface. -/
@[match_pattern] def Value.map (m : List (String × Atom)) : Value := .item (.map m)

/-- The type assertion `v.(string)`. -/
def Atom.assertString : Atom → Except Panic String
  | .str s => .ok s
  | _ => .error .typeAssertion

/-- The type assertion `v.(int)`. -/
def Atom.assertInt : Atom → Except Panic Int
  | .int n => .ok n
  | _ => .error .typeAssertion

/-- The type assertion `v.(map[string]interface{})` on a list element. -/
def Item.assertMap : Item → Except Panic (List (String × Atom))
  | .map m => .ok m
  | _ => .error .typeAssertion

/-- The type assertion `v.(string)`. -/
def Value.assertString : Value → Except Panic String
  | .item (.atom a) => a.assertString
  | _ => .error .typeAssertion

/-- The type assertion `v.([]interface{})`. -/
def Value.assertList : Value → Except Panic (List Item)
  | .list xs => .ok xs
  | _ => .error .typeAssertion

/-- The index expression `m[key]` on a `map[string]interface{}`: the nil
interface when the key is missing. -/
def mapIndex (m : List (String × Atom)) (key : String) : Atom :=
  (m.lookup key).getD .nil

/-- The assignment `m[key] = v`: replaces the entry of `key` or adds one. -/
def mapAssign (m : List (String × Atom)) (key : String) (v : Atom) : List (String × Atom) :=
  match m with
  | [] => [(key, v)]
  | (k, x) :: rest => if k = key then (k, v) :: rest else (k, x) :: mapAssign rest key v

/-- A Go slice: `none` is the nil slice. -/
abbrev Slice (α : Type) := Option (List α)

/-- The elements of a slice; a nil slice has none. -/
def Slice.toList {α : Type} (s : Slice α) : List α := s.getD []

/-- The built-in `len` on a slice. -/
def Slice.len {α : Type} (s : Slice α) : Nat := s.toList.length

/-- The SDK helper `aws.String`: a pointer to the given string. -/
def awsString (v : String) : Option String := some v

/-- The SDK helper `aws.Int64`: a pointer to the given 64-bit integer. -/
def awsInt64 (v : Int) : Option Int := some v

/-- The SDK helper `aws.StringSlice`: a slice of pointers to the given strings. -/
def awsStringSlice (src : List String) : Slice (Option String) := some (src.map some)

/-! ## SDK structures (the fields the file touches) -/

/-- The SDK type `gamelift.IpPermission`. -/
structure IpPermission where
  FromPort : Option Int := none
  IpRange : Option String := none
  Protocol : Option String := none
  ToPort : Option Int := none
  deriving DecidableEq, Repr

/-- The SDK type `gamelift.ResourceCreationLimitPolicy`. -/
structure ResourceCreationLimitPolicy where
  NewGameSessionsPerCreator : Option Int := none
  PolicyPeriodInMinutes : Option Int := none
  deriving DecidableEq, Repr

/-- The SDK type `gamelift.ServerProcess`. -/
structure ServerProcess where
  ConcurrentExecutions : Option Int := none
  LaunchPath : Option String := none
  Parameters : Option String := none
  deriving DecidableEq, Repr

/-- The SDK type `gamelift.RuntimeConfiguration`. -/
structure RuntimeConfiguration where
  ServerProcesses : Slice (Option ServerProcess) := none
  deriving DecidableEq, Repr

/-- The SDK type `gamelift.CreateFleetInput`. -/
structure CreateFleetInput where
  BuildId : Option String := none
  Description : Option String := none
  EC2InboundPermissions : Slice (Option IpPermission) := none
  EC2InstanceType : Option String := none
  LogPaths : Slice (Option String) := none
  MetricGroups : Slice (Option String) := none
  Name : Option String := none
  NewGameSessionProtectionPolicy : Option String := none
  PeerVpcAwsAccountId : Option String := none
  PeerVpcId : Option String := none
  ResourceCreationLimitPolicy : Option ResourceCreationLimitPolicy := none
  RuntimeConfiguration : Option RuntimeConfiguration := none
  ServerLaunchParameters : Option String := none
  ServerLaunchPath : Option String := none
  deriving DecidableEq, Repr

/-- The SDK type `gamelift.FleetAttributes`. -/
structure FleetAttributes where
  BuildId : Option String := none
  Description : Option String := none
  FleetArn : Option String := none
  FleetId : Option String := none
  LogPaths : Slice (Option String) := none
  MetricGroups : Slice (Option String) := none
  Name : Option String := none
  NewGameSessionProtectionPolicy : Option String := none
  OperatingSystem : Option String := none
  ResourceCreationLimitPolicy : Option ResourceCreationLimitPolicy := none
  ServerLaunchParameters : Option String := none
  ServerLaunchPath : Option String := none
  Status : Option String := none
  deriving DecidableEq, Repr

/-- The SDK type `gamelift.CreateFleetOutput`. -/
structure CreateFleetOutput where
  FleetAttributes : Option FleetAttributes := none
  deriving DecidableEq, Repr

/-- The SDK type `gamelift.DescribeFleetAttributesInput`. -/
structure DescribeFleetAttributesInput where
  FleetIds : Slice (Option String) := none
  deriving DecidableEq, Repr

/-- The SDK type `gamelift.DescribeFleetAttributesOutput`. -/
structure DescribeFleetAttributesOutput where
  FleetAttributes : Slice (Option FleetAttributes) := none
  deriving DecidableEq, Repr

/-- The SDK type `gamelift.UpdateFleetAttributesInput`. -/
structure UpdateFleetAttributesInput where
  Description : Option String := none
  FleetId : Option String := none
  MetricGroups : Slice (Option String) := none
  Name : Option String := none
  NewGameSessionProtectionPolicy : Option String := none
  ResourceCreationLimitPolicy : Option ResourceCreationLimitPolicy := none
  deriving DecidableEq, Repr

/-- The SDK type `gamelift.UpdateFleetAttributesOutput`. -/
structure UpdateFleetAttributesOutput where
  FleetId : Option String := none
  deriving DecidableEq, Repr

/-- The SDK type `gamelift.DeleteFleetInput`. -/
structure DeleteFleetInput where
  FleetId : Option String := none
  deriving DecidableEq, Repr

/-- The SDK type `gamelift.DeleteFleetOutput`. -/
structure DeleteFleetOutput where
  deriving DecidableEq, Repr

/-- The SDK client `*gamelift.GameLift`, restricted to the four operations the
file calls. Each operation reads and may change the remote state `σ` and
returns either an error or its output. -/
structure GameLift (σ : Type) where
  CreateFleet : CreateFleetInput → σ → Except GoError CreateFleetOutput × σ
  DescribeFleetAttributes :
    DescribeFleetAttributesInput → σ → Except GoError DescribeFleetAttributesOutput × σ
  UpdateFleetAttributes :
    UpdateFleetAttributesInput → σ → Except GoError UpdateFleetAttributesOutput × σ
  DeleteFleet : DeleteFleetInput → σ → Except GoError DeleteFleetOutput × σ

/-- The provider handle `*AWSClient`, of which the file uses `gameliftconn`. -/
structure AWSClient (σ : Type) where
  gameliftconn : GameLift σ

/-- The status constants `gamelift.FleetStatus...` of the SDK. -/
def FleetStatusActivating : String := "ACTIVATING"

/-- See `FleetStatusActivating`. -/
def FleetStatusActive : String := "ACTIVE"

/-- See `FleetStatusActivating`. -/
def FleetStatusBuilding : String := "BUILDING"

/-- See `FleetStatusActivating`. -/
def FleetStatusDownloading : String := "DOWNLOADING"

/-- See `FleetStatusActivating`. -/
def FleetStatusNew : String := "NEW"

/-- See `FleetStatusActivating`. -/
def FleetStatusValidating : String := "VALIDATING"

/-! ## `schema.ResourceData`

The library type is modelled by its documented contract: a schema, the
recorded id and the attribute values (newest first). `Get` yields a value of
the declared type, or the zero value of that type when nothing is set, and the
nil interface for a key the schema does not declare; `GetOk` additionally
reports whether the value differs from the zero value; `Set` stores a value of
the declared type and otherwise returns an error and stores nothing. -/

/-- The library enumeration `schema.ValueType` (the members used here). -/
inductive ValueType where
  | TypeString
  | TypeInt
  | TypeList
  | TypeMap
  deriving DecidableEq, Repr

/-- The library type `schema.Schema` (the fields the resource sets). -/
structure Schema where
  type : ValueType
  Required : Bool := false
  Optional : Bool := false
  deriving DecidableEq, Repr

/-- The method `ValueType.Zero`. -/
def ValueType.Zero : ValueType → Value
  | .TypeString => .str ""
  | .TypeInt => .int 0
  | .TypeList => .list []
  | .TypeMap => .map []

/-- Whether a value is of the Go type that a schema type stands for. -/
def Value.hasType : Value → ValueType → Bool
  | .item (.atom (.str _)), .TypeString => true
  | .item (.atom (.int _)), .TypeInt => true
  | .list _, .TypeList => true
  | .item (.map _), .TypeMap => true
  | _, _ => false

/-- The library type `schema.ResourceData`. -/
structure ResourceData where
  schema : List (String × Schema)
  id : String
  attrs : List (String × Value)
  deriving DecidableEq, Repr

/-- The method `d.Id()`. -/
def ResourceData.Id (d : ResourceData) : String := d.id

/-- The method `d.SetId(v)`. -/
def ResourceData.SetId (d : ResourceData) (v : String) : ResourceData := { d with id := v }

/-- The method `d.Get(key)`. -/
def ResourceData.Get (d : ResourceData) (key : String) : Value :=
  match d.schema.lookup key with
  | none => .nil
  | some s =>
    match d.attrs.lookup key with
    | some v => if v.hasType s.type then v else s.type.Zero
    | none => s.type.Zero

/-- The method `d.GetOk(key)`: the value and whether it is set to a non-zero value. -/
def ResourceData.GetOk (d : ResourceData) (key : String) : Value × Bool :=
  match d.schema.lookup key with
  | none => (.nil, false)
  | some s => (d.Get key, decide (d.Get key ≠ s.type.Zero))

/-- The method `d.Set(key, value)`. A nil value stores the zero value. -/
def ResourceData.Set (d : ResourceData) (key : String) (value : Value) :
    ResourceData × Option GoError :=
  match d.schema.lookup key with
  | none => (d, some (.invalidAddress key))
  | some s =>
    if value = .nil then ({ d with attrs := (key, s.type.Zero) :: d.attrs }, none)
    else if value.hasType s.type then ({ d with attrs := (key, value) :: d.attrs }, none)
    else (d, some (.wrongType key))

/-- What `d.Set` receives for a `*string` argument: the library dereferences
the pointer, and a nil pointer becomes the nil value. -/
def ptrValue : Option String → Value
  | some s => .str s
  | none => .nil

/-! ## The resource -/

/-- The schema declared by `resourceAwsGameliftFleet` (every attribute is
declared with `schema.TypeString`). -/
def resourceAwsGameliftFleet : List (String × Schema) :=
  [ ("build_id", { type := .TypeString, Required := true }),
    ("ec2_instance_type", { type := .TypeString, Required := true }),
    ("name", { type := .TypeString, Required := true }),
    ("description", { type := .TypeString, Optional := true }),
    ("ec2_inbound_permissions", { type := .TypeString, Optional := true }),
    ("log_paths", { type := .TypeString, Optional := true }),
    ("metric_groups", { type := .TypeString, Optional := true }),
    ("new_game_session_protection_policy", { type := .TypeString, Optional := true }),
    ("peer_vpc_aws_account_id", { type := .TypeString, Optional := true }),
    ("peer_vpc_id", { type := .TypeString, Optional := true }),
    ("resource_creation_limit_policy", { type := .TypeString, Optional := true }),
    ("routing_strategy", { type := .TypeString, Optional := true }),
    ("runtime_configuration", { type := .TypeString, Optional := true }),
    ("server_launch_parameters", { type := .TypeString, Optional := true }),
    ("server_launch_path", { type := .TypeString, Optional := true }) ]

/-- The body of the loop of `expandGameliftIpPermissions`: the permission built
from one configured rule. -/
def expandIpPermission (rawCfg : Item) : Except Panic (Option IpPermission) := do
  let cfg ← rawCfg.assertMap
  let fromPort ← (mapIndex cfg "from_port").assertInt
  let ipRange ← (mapIndex cfg "ip_range").assertString
  let protocol ← (mapIndex cfg "protocol").assertString
  let toPort ← (mapIndex cfg "to_port").assertInt
  pure (some
    { FromPort := awsInt64 fromPort
      IpRange := awsString ipRange
      Protocol := awsString protocol
      ToPort := awsInt64 toPort })

/-- The translator `expandGameliftIpPermissions`. -/
def expandGameliftIpPermissions (cfgs : List Item) :
    Except Panic (Slice (Option IpPermission)) :=
  if cfgs.length < 1 then
    .ok (some [])
  else do
    let perms ← cfgs.mapM expandIpPermission
    pure (some perms)

/-- The body of the loop of `flattenGameliftIpPermissions`: the map built from
one permission. -/
def flattenIpPermission (ipp : Option IpPermission) : Except Panic Item :=
  match ipp with
  | none => .error .nilDereference
  | some ipp => do
    let m : List (String × Atom) := []
    let fromPort ← ipp.FromPort.elim (.error .nilDereference) .ok
    let m := mapAssign m "from_port" (.int64 fromPort)
    let ipRange ← ipp.IpRange.elim (.error .nilDereference) .ok
    let m := mapAssign m "ip_range" (.str ipRange)
    let protocol ← ipp.Protocol.elim (.error .nilDereference) .ok
    let m := mapAssign m "protocol" (.str protocol)
    let toPort ← ipp.ToPort.elim (.error .nilDereference) .ok
    let m := mapAssign m "to_port" (.int64 toPort)
    pure (.map m)

/-- The translator `flattenGameliftIpPermissions`. -/
def flattenGameliftIpPermissions (ipps : Slice (Option IpPermission)) :
    Except Panic (List Item) :=
  ipps.toList.mapM flattenIpPermission

/-- The translator `expandGameliftResourceCreationLimitPolicy` (a `TODO` in the
source: it returns nil for every argument). -/
def expandGameliftResourceCreationLimitPolicy (_cfg : List Item) :
    Option ResourceCreationLimitPolicy :=
  none

/-- The translator `flattenGameliftResourceCreationLimitPolicy` (a `TODO` in
the source: it returns the empty list for every argument). -/
def flattenGameliftResourceCreationLimitPolicy (_policy : Option ResourceCreationLimitPolicy) :
    List Item :=
  []

/-- The translator `expandGameliftRuntimeConfiguration` (a `TODO` in the
source: it returns nil for every argument). -/
def expandGameliftRuntimeConfiguration (_cfg : List Item) : Option RuntimeConfiguration :=
  none

/-- What a refresh function returns as its first result: nil, the integer
`42`, or the fleet found. -/
inductive RefreshValue where
  | nil
  | int (n : Int)
  | fleet (f : FleetAttributes)
  deriving DecidableEq, Repr

/-- The three results `(interface{}, string, error)` of a refresh function. -/
structure Refreshed where
  result : RefreshValue
  state : String
  err : Option GoError
  deriving DecidableEq, Repr

/-- The library type `resource.StateChangeConf` (the fields the file sets).
`Timeout` is a `time.Duration`, in nanoseconds. -/
structure StateChangeConf (σ : Type) where
  Pending : List String
  Target : List String
  Timeout : Nat
  Refresh : σ → Except Panic Refreshed × σ

/-- How a lifecycle function, or the poller, ends: it returns nil, returns an
error, or panics. -/
inductive Outcome where
  | ok
  | error (e : GoError)
  | panic (p : Panic)
  deriving DecidableEq, Repr

/-- What the file calls without defining it: the two string-list helpers of the
provider (`aws/structure.go`) and the poller of the library
(`StateChangeConf.WaitForState`, whose first result the file discards). -/
structure Deps (σ : Type) where
  expandStringList : List Item → Except Panic (Slice (Option String))
  flattenStringList : Slice (Option String) → Except Panic (List Item)
  WaitForState : StateChangeConf σ → σ → Outcome × σ

/-- The state after a lifecycle function ran: the resource data, the remote
state and how the function ended. When the function panics, `d` is the
resource data as the statements executed before the panic left it. -/
structure Run (σ : Type) where
  d : ResourceData
  remote : σ
  outcome : Outcome

/-- The statement `if v, ok := d.GetOk(key); ok { input.F = conv(v) }`, where
`conv` is the conversion applied to `v` and `assign` stores its result. -/
def whenOk {α β : Type} (d : ResourceData) (key : String) (conv : Value → Except Panic β)
    (assign : α → β → α) (input : α) : Except Panic α :=
  match d.GetOk key with
  | (v, true) =>
    match conv v with
    | .ok x => .ok (assign input x)
    | .error p => .error p
  | (_, false) => .ok input

/-- The request that `resourceAwsGameliftFleetCreate` builds before it calls
the remote service (the statements up to the call of `CreateFleet`). -/
def createFleetInput {σ : Type} (deps : Deps σ) (d : ResourceData) :
    Except Panic CreateFleetInput := do
  let buildId ← (d.Get "build_id").assertString
  let ec2InstanceType ← (d.Get "ec2_instance_type").assertString
  let name ← (d.Get "name").assertString
  let input : CreateFleetInput :=
    { BuildId := awsString buildId
      EC2InstanceType := awsString ec2InstanceType
      Name := awsString name }
  let input ← whenOk d "description" Value.assertString
    (fun i v => { i with Description := awsString v }) input
  let input ← whenOk d "ec2_inbound_permissions"
    (fun v => v.assertList >>= expandGameliftIpPermissions)
    (fun i v => { i with EC2InboundPermissions := v }) input
  let input ← whenOk d "log_paths" (fun v => v.assertList >>= deps.expandStringList)
    (fun i v => { i with LogPaths := v }) input
  let input ← whenOk d "metric_groups" (fun v => v.assertList >>= deps.expandStringList)
    (fun i v => { i with MetricGroups := v }) input
  let input ← whenOk d "new_game_session_protection_policy" Value.assertString
    (fun i v => { i with NewGameSessionProtectionPolicy := awsString v }) input
  let input ← whenOk d "peer_vpc_aws_account_id" Value.assertString
    (fun i v => { i with PeerVpcAwsAccountId := awsString v }) input
  let input ← whenOk d "peer_vpc_id" Value.assertString
    (fun i v => { i with PeerVpcId := awsString v }) input
  let input ← whenOk d "resource_creation_limit_policy"
    (fun v => v.assertList >>= fun cfg => pure (expandGameliftResourceCreationLimitPolicy cfg))
    (fun i v => { i with ResourceCreationLimitPolicy := v }) input
  let input ← whenOk d "runtime_configuration"
    (fun v => v.assertList >>= fun cfg => pure (expandGameliftRuntimeConfiguration cfg))
    (fun i v => { i with RuntimeConfiguration := v }) input
  let input ← whenOk d "server_launch_parameters" Value.assertString
    (fun i v => { i with ServerLaunchParameters := awsString v }) input
  let input ← whenOk d "server_launch_path" Value.assertString
    (fun i v => { i with ServerLaunchPath := awsString v }) input
  pure input

/-- The `d.Set` statements of `resourceAwsGameliftFleetRead`, applied to the
fleet `attributes[0]`: the resource data as the statements leave it, and the
panic that stopped them, if any. `d.Set` works in place, so the statements
executed before a panic have taken effect. The error that `d.Set` returns is
discarded, as in the source. -/
def setFleetAttributes {σ : Type} (deps : Deps σ) (d : ResourceData)
    (fleet : Option FleetAttributes) : ResourceData × Option Panic :=
  match fleet with
  | none => (d, some .nilDereference)
  | some fleet =>
    let d := (d.Set "build_id" (ptrValue fleet.BuildId)).1
    let d := (d.Set "description" (ptrValue fleet.Description)).1
    let d := (d.Set "fleet_arn" (ptrValue fleet.FleetArn)).1
    match deps.flattenStringList fleet.LogPaths with
    | .error p => (d, some p)
    | .ok logPaths =>
      let d := (d.Set "log_paths" (.list logPaths)).1
      match deps.flattenStringList fleet.MetricGroups with
      | .error p => (d, some p)
      | .ok metricGroups =>
        let d := (d.Set "metric_groups" (.list metricGroups)).1
        let d := (d.Set "name" (ptrValue fleet.Name)).1
        let d := (d.Set "new_game_session_protection_policy"
          (ptrValue fleet.NewGameSessionProtectionPolicy)).1
        let d := (d.Set "operating_system" (ptrValue fleet.OperatingSystem)).1
        let d := (d.Set "resource_creation_limit_policy"
          (.list
            (flattenGameliftResourceCreationLimitPolicy fleet.ResourceCreationLimitPolicy))).1
        let d := (d.Set "server_launch_parameters" (ptrValue fleet.ServerLaunchParameters)).1
        let d := (d.Set "server_launch_path" (ptrValue fleet.ServerLaunchPath)).1
        (d, none)

/-- The function `resourceAwsGameliftFleetRead`. -/
def resourceAwsGameliftFleetRead {σ : Type} (deps : Deps σ) (d : ResourceData)
    (client : AWSClient σ) (w : σ) : Run σ :=
  let conn := client.gameliftconn
  match conn.DescribeFleetAttributes { FleetIds := awsStringSlice [d.Id] } w with
  | (.error err, w1) => ⟨d, w1, .error err⟩
  | (.ok out, w1) =>
    let attributes := out.FleetAttributes
    if attributes.len < 1 then
      ⟨d.SetId "", w1, .ok⟩
    else if attributes.len ≠ 1 then
      ⟨d, w1, .error (.notExactlyOne attributes.len d.Id)⟩
    else
      match attributes.toList.head? with
      | none => ⟨d, w1, .panic .indexOutOfRange⟩
      | some fleet =>
        match setFleetAttributes deps d fleet with
        | (d1, some p) => ⟨d1, w1, .panic p⟩
        | (d1, none) => ⟨d1, w1, .ok⟩

/-- The closure that `resourceAwsGameliftFleetCreate` stores in
`StateChangeConf.Refresh`. -/
def createRefresh {σ : Type} (conn : GameLift σ) (d : ResourceData) (w : σ) :
    Except Panic Refreshed × σ :=
  match conn.DescribeFleetAttributes { FleetIds := awsStringSlice [d.Id] } w with
  | (.error err, w1) => (.ok ⟨.int 42, "", some err⟩, w1)
  | (.ok out, w1) =>
    let attributes := out.FleetAttributes
    if attributes.len < 1 then
      (.ok ⟨.nil, "", none⟩, w1)
    else if attributes.len ≠ 1 then
      (.ok ⟨.int 42, "", some (.notExactlyOne attributes.len d.Id)⟩, w1)
    else
      match attributes.toList.head? with
      | none => (.error .indexOutOfRange, w1)
      | some none => (.error .nilDereference, w1)
      | some (some fleet) =>
        match fleet.Status with
        | none => (.error .nilDereference, w1)
        | some status => (.ok ⟨.fleet fleet, status, none⟩, w1)

/-- The duration `time.Minute`, in nanoseconds. -/
def Minute : Nat := 60 * 1000000000

/-- The `StateChangeConf` that `resourceAwsGameliftFleetCreate` builds. -/
def createStateConf {σ : Type} (conn : GameLift σ) (d : ResourceData) : StateChangeConf σ :=
  { Pending :=
      [ FleetStatusActivating, FleetStatusBuilding, FleetStatusDownloading, FleetStatusNew,
        FleetStatusValidating ]
    Target := [FleetStatusActive]
    Timeout := 1 * Minute
    Refresh := createRefresh conn d }

/-- The function `resourceAwsGameliftFleetCreate`. -/
def resourceAwsGameliftFleetCreate {σ : Type} (deps : Deps σ) (d : ResourceData)
    (client : AWSClient σ) (w : σ) : Run σ :=
  let conn := client.gameliftconn
  match createFleetInput deps d with
  | .error p => ⟨d, w, .panic p⟩
  | .ok input =>
    match conn.CreateFleet input w with
    | (.error err, w1) => ⟨d, w1, .error err⟩
    | (.ok out, w1) =>
      match out.FleetAttributes.bind (fun fa => fa.FleetId) with
      | none => ⟨d, w1, .panic .nilDereference⟩
      | some fleetId =>
        let d := d.SetId fleetId
        match deps.WaitForState (createStateConf conn d) w1 with
        | (.panic p, w2) => ⟨d, w2, .panic p⟩
        | (.error err, w2) => ⟨d, w2, .error err⟩
        | (.ok, w2) => resourceAwsGameliftFleetRead deps d client w2

/-- The request that `resourceAwsGameliftFleetUpdate` builds; the operands are
evaluated in the order of the source. -/
def updateFleetAttributesInput {σ : Type} (deps : Deps σ) (d : ResourceData) :
    Except Panic UpdateFleetAttributesInput := do
  let description ← (d.Get "description").assertString
  let fleetId ← (d.Get "fleet_id").assertString
  let metricGroups ← (d.Get "metric_groups").assertList >>= deps.expandStringList
  let name ← (d.Get "name").assertString
  let policy ← (d.Get "new_game_session_protection_policy").assertString
  let limitCfg ← (d.Get "resource_creation_limit_policy").assertList
  pure
    { Description := awsString description
      FleetId := awsString fleetId
      MetricGroups := metricGroups
      Name := awsString name
      NewGameSessionProtectionPolicy := awsString policy
      ResourceCreationLimitPolicy := expandGameliftResourceCreationLimitPolicy limitCfg }

/-- The function `resourceAwsGameliftFleetUpdate`. -/
def resourceAwsGameliftFleetUpdate {σ : Type} (deps : Deps σ) (d : ResourceData)
    (client : AWSClient σ) (w : σ) : Run σ :=
  let conn := client.gameliftconn
  match updateFleetAttributesInput deps d with
  | .error p => ⟨d, w, .panic p⟩
  | .ok input =>
    match conn.UpdateFleetAttributes input w with
    | (.error err, w1) => ⟨d, w1, .error err⟩
    | (.ok _, w1) => resourceAwsGameliftFleetRead deps d client w1

/-- The function `resourceAwsGameliftFleetDelete`. -/
def resourceAwsGameliftFleetDelete {σ : Type} (d : ResourceData) (client : AWSClient σ)
    (w : σ) : Run σ :=
  let conn := client.gameliftconn
  match conn.DeleteFleet { FleetId := awsString d.Id } w with
  | (.error err, w1) => ⟨d, w1, .error err⟩
  | (.ok _, w1) => ⟨d, w1, .ok⟩

/-! ## The round trip through the remote service -/

/-- A remote service that echoes a create request: every field of the request
that `gamelift.FleetAttributes` also has is copied unchanged, and nothing else
is reported. -/
def echoFleetAttributes (input : CreateFleetInput) : FleetAttributes :=
  { BuildId := input.BuildId
    Description := input.Description
    LogPaths := input.LogPaths
    MetricGroups := input.MetricGroups
    Name := input.Name
    NewGameSessionProtectionPolicy := input.NewGameSessionProtectionPolicy
    ResourceCreationLimitPolicy := input.ResourceCreationLimitPolicy
    ServerLaunchParameters := input.ServerLaunchParameters
    ServerLaunchPath := input.ServerLaunchPath }

/-- The round trip: the create request is built from the desired state `D`,
echoed by the remote service, and mapped by the `d.Set` statements of
`resourceAwsGameliftFleetRead` into the local state `base` (in
`resourceAwsGameliftFleetCreate` the local state is `D` itself). -/
def roundTrip {σ : Type} (deps : Deps σ) (D base : ResourceData) : Except Panic ResourceData := do
  let input ← createFleetInput deps D
  match setFleetAttributes deps base (some (echoFleetAttributes input)) with
  | (L, none) => pure L
  | (_, some p) => .error p

/-- The attributes an operator can set. -/
def settableAttributes : List String :=
  [ "build_id", "ec2_instance_type", "name", "description", "ec2_inbound_permissions",
    "log_paths", "metric_groups", "new_game_session_protection_policy",
    "peer_vpc_aws_account_id", "peer_vpc_id", "resource_creation_limit_policy",
    "runtime_configuration", "server_launch_parameters", "server_launch_path" ]

/-- The string-valued attributes that `resourceAwsGameliftFleetRead` maps back
from the fleet attributes. -/
def mappedStringAttributes : List String :=
  [ "build_id", "name", "description", "new_game_session_protection_policy",
    "server_launch_parameters", "server_launch_path" ]

/-- The settable attributes for which `resourceAwsGameliftFleetRead` has no
`d.Set` statement. -/
def unmappedAttributes : List String :=
  [ "ec2_instance_type", "ec2_inbound_permissions", "peer_vpc_aws_account_id", "peer_vpc_id",
    "runtime_configuration" ]

/-! ## Concrete scenarios -/

/-- The schema of the resource with the five attributes that the lifecycle
functions assert to be `[]interface{}` declared as lists. -/
def fleetSchemaWithLists : List (String × Schema) :=
  [ ("build_id", { type := .TypeString, Required := true }),
    ("ec2_instance_type", { type := .TypeString, Required := true }),
    ("name", { type := .TypeString, Required := true }),
    ("description", { type := .TypeString, Optional := true }),
    ("ec2_inbound_permissions", { type := .TypeList, Optional := true }),
    ("log_paths", { type := .TypeList, Optional := true }),
    ("metric_groups", { type := .TypeList, Optional := true }),
    ("new_game_session_protection_policy", { type := .TypeString, Optional := true }),
    ("peer_vpc_aws_account_id", { type := .TypeString, Optional := true }),
    ("peer_vpc_id", { type := .TypeString, Optional := true }),
    ("resource_creation_limit_policy", { type := .TypeList, Optional := true }),
    ("routing_strategy", { type := .TypeString, Optional := true }),
    ("runtime_configuration", { type := .TypeList, Optional := true }),
    ("server_launch_parameters", { type := .TypeString, Optional := true }),
    ("server_launch_path", { type := .TypeString, Optional := true }) ]

/-- Modelled from the spec: `expandStringList` (defined in `aws/structure.go`,
outside the source file), as the element-wise translation of a list of strings
into a list of string pointers. -/
def elementwiseExpand (configured : List Item) : Except Panic (Slice (Option String)) := do
  let vs ← configured.mapM fun v =>
    match v with
    | .atom a => a.assertString >>= fun s => pure (awsString s)
    | .map _ => .error .typeAssertion
  pure (some vs)

/-- Modelled from the spec: `flattenStringList` (defined in `aws/structure.go`,
outside the source file), as the element-wise translation of a list of string
pointers into a list of strings. -/
def elementwiseFlatten (list : Slice (Option String)) : Except Panic (List Item) :=
  list.toList.mapM fun v =>
    match v with
    | some s => .ok (.atom (.str s))
    | none => .error .nilDereference

/-- A poller with a bounded number of polls, in the shape of the state
convergence poller: an error of the refresh function ends the wait, a nil
result or a pending status polls again, a target status succeeds, any other
status fails, and running out of polls is a timeout. -/
def boundedWait {σ : Type} (polls : Nat) (conf : StateChangeConf σ) (w : σ) : Outcome × σ :=
  match polls with
  | 0 => (.error (.wait "timeout"), w)
  | n + 1 =>
    match conf.Refresh w with
    | (.error p, w1) => (.panic p, w1)
    | (.ok r, w1) =>
      match r.err with
      | some e => (.error e, w1)
      | none =>
        if r.result = .nil then boundedWait n conf w1
        else if r.state ∈ conf.Target then (.ok, w1)
        else if r.state ∈ conf.Pending then boundedWait n conf w1
        else (.error (.wait r.state), w1)

/-- A call received by the remote service. -/
inductive Call where
  | createFleet (input : CreateFleetInput)
  | describeFleetAttributes (input : DescribeFleetAttributesInput)
  | updateFleetAttributes (input : UpdateFleetAttributesInput)
  | deleteFleet (input : DeleteFleetInput)
  deriving DecidableEq, Repr

/-- A scripted remote service: the answer it gives to each operation (for
`DescribeFleetAttributes` the successive answers, the last one repeated) and
the calls it has received so far. -/
structure Script where
  create : Except GoError CreateFleetOutput
  describe : List (Except GoError DescribeFleetAttributesOutput)
  update : Except GoError UpdateFleetAttributesOutput
  delete : Except GoError DeleteFleetOutput
  calls : List Call := []

/-- The client of a scripted remote service: it records the call and answers
from the script. -/
def scripted : GameLift Script :=
  { CreateFleet := fun input s => (s.create, { s with calls := s.calls ++ [.createFleet input] })
    DescribeFleetAttributes := fun input s =>
      match s.describe with
      | [] => (.ok {}, { s with calls := s.calls ++ [.describeFleetAttributes input] })
      | [a] => (a, { s with calls := s.calls ++ [.describeFleetAttributes input] })
      | a :: rest =>
        (a, { s with describe := rest, calls := s.calls ++ [.describeFleetAttributes input] })
    UpdateFleetAttributes := fun input s =>
      (s.update, { s with calls := s.calls ++ [.updateFleetAttributes input] })
    DeleteFleet := fun input s =>
      (s.delete, { s with calls := s.calls ++ [.deleteFleet input] }) }

/-- The provider handle over the scripted remote service. -/
def scriptedClient : AWSClient Script := { gameliftconn := scripted }

/-- The parameters used in the concrete scenarios: the element-wise string-list
helpers and a poller that polls at most five times. -/
def sampleDeps : Deps Script :=
  { expandStringList := elementwiseExpand
    flattenStringList := elementwiseFlatten
    WaitForState := boundedWait 5 }

/-- The answer of `DescribeFleetAttributes` that reports the single fleet `f`. -/
def oneFleet (f : FleetAttributes) : Except GoError DescribeFleetAttributesOutput :=
  .ok { FleetAttributes := some [some f] }

/-- The answer of `DescribeFleetAttributes` that reports no fleet. -/
def noFleet : Except GoError DescribeFleetAttributesOutput :=
  .ok { FleetAttributes := some [] }

/-- The error with which the remote service reports an absent fleet. -/
def notFound : GoError := .sdk "NotFoundException" "fleet not found"

/-- A desired state with the three required attributes only, under the schema
the resource declares. -/
def minimalFleet : ResourceData :=
  { schema := resourceAwsGameliftFleet
    id := ""
    attrs := [("build_id", .str "b-1"), ("ec2_instance_type", .str "c5.large"),
      ("name", .str "fleet-A")] }

/-- The fleet `fleet-123`, as the remote service reports it with status `st`. -/
def fleet123 (st : String) : FleetAttributes :=
  { BuildId := some "b-1", FleetId := some "fleet-123", Name := some "fleet-A",
    Status := some st }

/-- A remote service that creates `fleet-123` and then reports it as `NEW`,
then as `ERROR`. -/
def failingRemote : Script :=
  { create := .ok { FleetAttributes := some (fleet123 "NEW") }
    describe := [oneFleet (fleet123 "NEW"), oneFleet (fleet123 "ERROR")]
    update := .ok {}
    delete := .ok {} }

/-- A remote service that creates `fleet-123` and then reports it as `NEW`,
then as `ACTIVE`. -/
def healthyRemote : Script :=
  { create := .ok { FleetAttributes := some (fleet123 "NEW") }
    describe := [oneFleet (fleet123 "NEW"), oneFleet (fleet123 "ACTIVE")]
    update := .ok {}
    delete := .ok {} }

/-- A remote service whose `CreateFleet` succeeds with an answer that carries
no fleet attributes, and so no fleet id. -/
def idlessRemote : Script :=
  { create := .ok { FleetAttributes := none }
    describe := [noFleet]
    update := .ok {}
    delete := .ok {} }

/-- A remote service that reports exactly one fleet for `fleet-123`, without a
status. -/
def statuslessRemote : Script :=
  { create := .ok { FleetAttributes := some (fleet123 "NEW") }
    describe := [oneFleet { BuildId := some "b-1", FleetId := some "fleet-123",
                            Name := some "fleet-A" }]
    update := .ok {}
    delete := .ok {} }

/-- A remote service on which no fleet exists. -/
def emptyRemote : Script :=
  { create := .error (.sdk "LimitExceededException" "too many fleets")
    describe := [noFleet]
    update := .error notFound
    delete := .error notFound }

/-- Two inbound-permission rules, as configured. -/
def sampleRules : List Item :=
  [ .map [("from_port", .int 8080), ("ip_range", .str "10.0.0.0/8"), ("protocol", .str "TCP"),
      ("to_port", .int 8090)],
    .map [("to_port", .int 53), ("protocol", .str "UDP"), ("ip_range", .str "0.0.0.0/0"),
      ("from_port", .int 53)] ]

/-- A resource-creation-limit block, as configured. -/
def sampleLimitBlock : Item :=
  .map [("new_game_sessions_per_creator", .int 3), ("policy_period_in_minutes", .int 15)]

/-- A desired state with a description, two log paths, an empty list of inbound
permissions and one resource-creation-limit block, under the schema with
lists. -/
def fullFleet : ResourceData :=
  { schema := fleetSchemaWithLists
    id := ""
    attrs := [("build_id", .str "b-1"), ("ec2_instance_type", .str "c5.large"),
      ("name", .str "fleet-A"), ("description", .str "demo"),
      ("ec2_inbound_permissions", .list []),
      ("log_paths", .list [.atom (.str "/var/log/a"), .atom (.str "/var/log/b")]),
      ("resource_creation_limit_policy", .list [sampleLimitBlock])] }

/-- The desired state `minimalFleet` with a resource-creation-limit attribute,
under the schema the resource declares (where the attribute is a string). -/
def declaredFleetWithLimit : ResourceData :=
  { minimalFleet with
    attrs := ("resource_creation_limit_policy", .str "3 per 15") :: minimalFleet.attrs }

/-- What the statement `if v, ok := d.GetOk(key); ok { input.F = g(conv(v)) }`
leaves in a request field `f` that was nil before it: nil when `GetOk` reports
the attribute as not set, and otherwise the converted value. -/
def AssignedFrom {β γ : Type} (d : ResourceData) (key : String) (conv : Value → Except Panic β)
    (g : β → Option γ) (f : Option γ) : Prop :=
  ((d.GetOk key).2 = false ∧ f = none) ∨
    ∃ x, (d.GetOk key).2 = true ∧ conv (d.GetOk key).1 = .ok x ∧ f = g x

/-- The attribute `key` has no value in the resource data: the operator
omitted it. -/
def ResourceData.Omitted (d : ResourceData) (key : String) : Prop :=
  d.attrs.lookup key = none

instance (d : ResourceData) (key : String) : Decidable (d.Omitted key) :=
  inferInstanceAs (Decidable (d.attrs.lookup key = none))

/-- The optional attributes that `resourceAwsGameliftFleetCreate` reads. -/
def optionalAttributes : List String :=
  [ "description", "ec2_inbound_permissions", "log_paths", "metric_groups",
    "new_game_session_protection_policy", "peer_vpc_aws_account_id", "peer_vpc_id",
    "resource_creation_limit_policy", "runtime_configuration", "server_launch_parameters",
    "server_launch_path" ]

theorem createFleetInput_SetId {σ : Type} (deps : Deps σ) (d : ResourceData) (v : String) :
    createFleetInput deps (d.SetId v) = createFleetInput deps d := rfl

theorem SetId_SetId (d : ResourceData) (u v : String) : (d.SetId u).SetId v = d.SetId v := rfl

/-- C1: when the describe call succeeds and reports no fleet, `Read` returns
nil and the recorded id is empty afterwards. -/
theorem read_without_fleet_clears_id {σ : Type} (deps : Deps σ) (d : ResourceData)
    (client : AWSClient σ) (w w1 : σ) (out : DescribeFleetAttributesOutput)
    (hcall : client.gameliftconn.DescribeFleetAttributes { FleetIds := awsStringSlice [d.Id] } w
      = (.ok out, w1))
    (hzero : out.FleetAttributes.len = 0) :
    (resourceAwsGameliftFleetRead deps d client w).outcome = .ok ∧
      (resourceAwsGameliftFleetRead deps d client w).d.Id = "" ∧
      (resourceAwsGameliftFleetRead deps d client w).d.attrs = d.attrs := by
  simp only [resourceAwsGameliftFleetRead, hcall, hzero]
  simp [ResourceData.SetId, ResourceData.Id]

/-- A run of `Read` for the recorded id `fleet-123` against the remote service on
which no fleet exists. -/
theorem read_without_fleet_clears_id_witness :
    (resourceAwsGameliftFleetRead sampleDeps { minimalFleet with id := "fleet-123" }
        scriptedClient emptyRemote).outcome = .ok ∧
      (resourceAwsGameliftFleetRead sampleDeps { minimalFleet with id := "fleet-123" }
        scriptedClient emptyRemote).d.Id = "" ∧
      (resourceAwsGameliftFleetRead sampleDeps { minimalFleet with id := "fleet-123" }
        scriptedClient emptyRemote).d.attrs = minimalFleet.attrs :=
  read_without_fleet_clears_id sampleDeps { minimalFleet with id := "fleet-123" } scriptedClient
    emptyRemote _ { FleetAttributes := some [] } rfl rfl

/-- C2: when `CreateFleet` succeeds with fleet id `f` and the wait for `ACTIVE`
returns an error, `Create` returns that error and the recorded id is `f`; when
`CreateFleet` fails, `Create` returns its error and the recorded id is the one
recorded before the call. -/
theorem create_keeps_id_when_wait_fails {σ : Type} (deps : Deps σ) (d : ResourceData)
    (client : AWSClient σ) (w : σ) (input : CreateFleetInput)
    (hbuild : createFleetInput deps d = .ok input) :
    (∀ (out : CreateFleetOutput) (fa : FleetAttributes) (f : String) (w1 w2 : σ) (e : GoError),
      client.gameliftconn.CreateFleet input w = (.ok out, w1) →
      out.FleetAttributes = some fa → fa.FleetId = some f →
      deps.WaitForState (createStateConf client.gameliftconn (d.SetId f)) w1 = (.error e, w2) →
      (resourceAwsGameliftFleetCreate deps d client w).outcome = .error e ∧
        (resourceAwsGameliftFleetCreate deps d client w).d.Id = f) ∧
    (∀ (e : GoError) (w1 : σ),
      client.gameliftconn.CreateFleet input w = (.error e, w1) →
      (resourceAwsGameliftFleetCreate deps d client w).outcome = .error e ∧
        (resourceAwsGameliftFleetCreate deps d client w).d.Id = d.Id) := by
  constructor
  · intro out fa f w1 w2 e hcreate hfa hf hwait
    simp only [resourceAwsGameliftFleetCreate, hbuild, hcreate, hfa, hf, hwait, Option.bind]
    simp [ResourceData.SetId, ResourceData.Id]
  · intro e w1 hcreate
    simp [resourceAwsGameliftFleetCreate, hbuild, hcreate]

/-- Two runs of `Create`: against a remote service whose new fleet `fleet-123`
turns to `ERROR` while the poller waits, and, with `fleet-old` recorded, against
a remote service that rejects `CreateFleet`. -/
theorem create_keeps_id_when_wait_fails_witness :
    ((resourceAwsGameliftFleetCreate sampleDeps minimalFleet scriptedClient failingRemote).outcome
        = .error (.wait "ERROR") ∧
      (resourceAwsGameliftFleetCreate sampleDeps minimalFleet scriptedClient failingRemote).d.Id
        = "fleet-123") ∧
    ((resourceAwsGameliftFleetCreate sampleDeps { minimalFleet with id := "fleet-old" }
        scriptedClient emptyRemote).outcome
        = .error (.sdk "LimitExceededException" "too many fleets") ∧
      (resourceAwsGameliftFleetCreate sampleDeps { minimalFleet with id := "fleet-old" }
        scriptedClient emptyRemote).d.Id = "fleet-old") :=
  ⟨(create_keeps_id_when_wait_fails sampleDeps minimalFleet scriptedClient failingRemote
      { BuildId := some "b-1", EC2InstanceType := some "c5.large", Name := some "fleet-A" } rfl).1
      { FleetAttributes := some (fleet123 "NEW") } (fleet123 "NEW") "fleet-123" _ _ _
      rfl rfl rfl rfl,
   (create_keeps_id_when_wait_fails sampleDeps { minimalFleet with id := "fleet-old" }
      scriptedClient emptyRemote
      { BuildId := some "b-1", EC2InstanceType := some "c5.large", Name := some "fleet-A" } rfl).2
      _ _ rfl⟩

/-- C9, as stated, fails: on a describe result with exactly one fleet that
reports no status (its `Status` pointer is nil) the refresh function returns
neither that fleet nor an error; it panics on the dereference `*fleet.Status`.
The same holds when the single entry of the result is itself nil. -/
theorem refresh_single_fleet_counterexample :
    (scripted.DescribeFleetAttributes
        { FleetIds := awsStringSlice [({ minimalFleet with id := "fleet-123" } : ResourceData).Id] }
        statuslessRemote).1
      = .ok { FleetAttributes := some [some { BuildId := some "b-1", FleetId := some "fleet-123",
                                               Name := some "fleet-A" }] } ∧
    (createRefresh scripted { minimalFleet with id := "fleet-123" } statuslessRemote).1
      = .error .nilDereference ∧
    (createRefresh scripted { minimalFleet with id := "fleet-123" }
        { statuslessRemote with describe := [.ok { FleetAttributes := some [none] }] }).1
      = .error .nilDereference :=
  ⟨rfl, rfl, rfl⟩

/-- C9, amended: the refresh function classifies every describe result. It
returns an error exactly when the describe call fails or reports more than one
fleet, and a returned error always comes with the empty status, never with a
pending one; when no fleet is reported it returns a nil result, the empty status
and no error; when exactly one fleet is reported and that fleet reports a
status, it returns that fleet, exactly that status, and no error; when the
single entry is nil or reports no status, it panics with a nil dereference. -/
theorem refresh_classifies_by_count {σ : Type} (conn : GameLift σ) (d : ResourceData) (w : σ) :
    ((∃ r, (createRefresh conn d w).1 = .ok r ∧ r.err ≠ none) ↔
      ((∃ e, (conn.DescribeFleetAttributes { FleetIds := awsStringSlice [d.Id] } w).1 = .error e) ∨
        (∃ out, (conn.DescribeFleetAttributes { FleetIds := awsStringSlice [d.Id] } w).1 = .ok out ∧
          1 < out.FleetAttributes.len))) ∧
    (∀ out, (conn.DescribeFleetAttributes { FleetIds := awsStringSlice [d.Id] } w).1 = .ok out →
      out.FleetAttributes.len = 0 →
      (createRefresh conn d w).1 = .ok ⟨.nil, "", none⟩) ∧
    (∀ out fleet status,
      (conn.DescribeFleetAttributes { FleetIds := awsStringSlice [d.Id] } w).1 = .ok out →
      out.FleetAttributes.toList = [some fleet] → fleet.Status = some status →
      (createRefresh conn d w).1 = .ok ⟨.fleet fleet, status, none⟩) ∧
    (∀ r, (createRefresh conn d w).1 = .ok r → r.err ≠ none → r.state = "") ∧
    (∀ out,
      (conn.DescribeFleetAttributes { FleetIds := awsStringSlice [d.Id] } w).1 = .ok out →
      out.FleetAttributes.toList = [none] →
      (createRefresh conn d w).1 = .error .nilDereference) ∧
    (∀ out fleet,
      (conn.DescribeFleetAttributes { FleetIds := awsStringSlice [d.Id] } w).1 = .ok out →
      out.FleetAttributes.toList = [some fleet] → fleet.Status = none →
      (createRefresh conn d w).1 = .error .nilDereference) := by
  unfold createRefresh
  rcases hcall : conn.DescribeFleetAttributes { FleetIds := awsStringSlice [d.Id] } w with ⟨res, w1⟩
  cases res with
  | error e =>
    simp only [reduceCtorEq, false_and, exists_false, or_false, false_implies, implies_true,
      and_true, true_and]
    refine ⟨by simp, ?_⟩
    intro r hr _
    simp at hr
    rw [← hr]
  | ok out =>
    refine ⟨?_, ?_, ?_, ?_, ?_, ?_⟩
    · by_cases h0 : out.FleetAttributes.len < 1
      · simp [h0]; omega
      · by_cases h1 : out.FleetAttributes.len = 1
        · have hne : ¬ out.FleetAttributes.len ≠ 1 := by omega
          dsimp only
          rw [if_neg h0, if_neg hne]
          constructor
          · rintro ⟨r, hr, herr⟩
            exfalso
            cases hh : out.FleetAttributes.toList.head? with
            | none => simp [hh] at hr
            | some o =>
              cases o with
              | none => simp [hh] at hr
              | some fleet =>
                cases hs : fleet.Status with
                | none => simp [hh, hs] at hr
                | some st =>
                  simp [hh, hs] at hr
                  rw [← hr] at herr
                  simp at herr
          · rintro (⟨e, he⟩ | ⟨o, ho, hgt⟩)
            · simp at he
            · simp at ho
              subst ho
              omega
        · have hlt : 1 < out.FleetAttributes.len := by omega
          simp [h0, h1, hlt]
    · intro out1 hout hlen
      simp at hout
      subst hout
      simp [hlen]
    · intro out1 fleet status hout hlist hstatus
      simp at hout
      subst hout
      have hlen : out.FleetAttributes.len = 1 := by simp [Slice.len, hlist]
      simp [hlen, hlist, hstatus]
    · intro r hr herr
      dsimp only at hr
      split at hr
      · simp at hr
        rw [← hr] at herr
        simp at herr
      · split at hr
        · simp at hr
          rw [← hr]
        · split at hr
          · simp at hr
          · simp at hr
          · split at hr
            · simp at hr
            · simp at hr
              rw [← hr] at herr
              simp at herr
    · intro out1 hout hlist
      simp at hout
      subst hout
      have hlen : out.FleetAttributes.len = 1 := by simp [Slice.len, hlist]
      simp [hlen, hlist]
    · intro out1 fleet hout hlist hstatus
      simp at hout
      subst hout
      have hlen : out.FleetAttributes.len = 1 := by simp [Slice.len, hlist]
      simp [hlen, hlist, hstatus]

/-- The refresh function on a remote service without a fleet, on one that
reports `fleet-123` as `NEW`, and on one that reports it without a status. -/
theorem refresh_classifies_by_count_witness :
    (createRefresh scripted { minimalFleet with id := "fleet-123" } emptyRemote).1
        = .ok ⟨.nil, "", none⟩ ∧
      (createRefresh scripted { minimalFleet with id := "fleet-123" } healthyRemote).1
        = .ok ⟨.fleet (fleet123 "NEW"), "NEW", none⟩ ∧
      (createRefresh scripted { minimalFleet with id := "fleet-123" } statuslessRemote).1
        = .error .nilDereference :=
  ⟨(refresh_classifies_by_count scripted { minimalFleet with id := "fleet-123" } emptyRemote).2.1
      { FleetAttributes := some [] } rfl rfl,
   (refresh_classifies_by_count scripted { minimalFleet with id := "fleet-123" }
      healthyRemote).2.2.1
      { FleetAttributes := some [some (fleet123 "NEW")] } (fleet123 "NEW") "NEW" rfl rfl rfl,
   (refresh_classifies_by_count scripted { minimalFleet with id := "fleet-123" }
      statuslessRemote).2.2.2.2.2
      { FleetAttributes := some [some { BuildId := some "b-1", FleetId := some "fleet-123",
                                        Name := some "fleet-A" }] }
      { BuildId := some "b-1", FleetId := some "fleet-123", Name := some "fleet-A" }
      rfl rfl rfl⟩

/-- C7, as stated, fails: for the recorded id `fleet-123` and a remote service
on which the fleet is absent (`DeleteFleet` reports `NotFoundException`),
`Delete` returns that error and the recorded id is still `fleet-123`; and after
a successful `DeleteFleet` the recorded id is still `fleet-123` as well. -/
theorem delete_absent_fleet_counterexample :
    ({ minimalFleet with id := "fleet-123" } : ResourceData).Id ≠ "" ∧
    (scripted.DeleteFleet { FleetId := awsString "fleet-123" } emptyRemote).1 = .error notFound ∧
    (resourceAwsGameliftFleetDelete { minimalFleet with id := "fleet-123" } scriptedClient
      emptyRemote).outcome = .error notFound ∧
    (resourceAwsGameliftFleetDelete { minimalFleet with id := "fleet-123" } scriptedClient
      emptyRemote).d.Id = "fleet-123" ∧
    (resourceAwsGameliftFleetDelete { minimalFleet with id := "fleet-123" } scriptedClient
      healthyRemote).outcome = .ok ∧
    (resourceAwsGameliftFleetDelete { minimalFleet with id := "fleet-123" } scriptedClient
      healthyRemote).d.Id = "fleet-123" := by
  refine ⟨by decide, rfl, rfl, rfl, rfl, rfl⟩

/-- C7, amended: `Delete` calls `DeleteFleet` with the recorded id and hands the
result on: an error of the remote call is returned as it is, a success returns
nil, and in both cases the resource data, the recorded id included, is left as
it was. -/
theorem delete_returns_remote_result {σ : Type} (d : ResourceData) (client : AWSClient σ)
    (w : σ) :
    (resourceAwsGameliftFleetDelete d client w).d = d ∧
    (resourceAwsGameliftFleetDelete d client w).remote
      = (client.gameliftconn.DeleteFleet { FleetId := some d.Id } w).2 ∧
    (∀ e, (client.gameliftconn.DeleteFleet { FleetId := some d.Id } w).1 = .error e →
      (resourceAwsGameliftFleetDelete d client w).outcome = .error e) ∧
    (∀ out, (client.gameliftconn.DeleteFleet { FleetId := some d.Id } w).1 = .ok out →
      (resourceAwsGameliftFleetDelete d client w).outcome = .ok) := by
  unfold resourceAwsGameliftFleetDelete awsString
  rcases hcall : client.gameliftconn.DeleteFleet { FleetId := some d.Id } w with ⟨res, w1⟩
  cases res <;> simp [hcall]

/-- Two runs of `Delete` for the recorded id `fleet-123`: the fleet is absent,
and the fleet is deleted. -/
theorem delete_returns_remote_result_witness :
    (resourceAwsGameliftFleetDelete { minimalFleet with id := "fleet-123" } scriptedClient
      emptyRemote).outcome = .error notFound ∧
    (resourceAwsGameliftFleetDelete { minimalFleet with id := "fleet-123" } scriptedClient
      healthyRemote).outcome = .ok :=
  ⟨(delete_returns_remote_result { minimalFleet with id := "fleet-123" } scriptedClient
      emptyRemote).2.2.1 notFound rfl,
   (delete_returns_remote_result { minimalFleet with id := "fleet-123" } scriptedClient
      healthyRemote).2.2.2 {} rfl⟩

/-- C8, as stated, fails: with the non-empty recorded id `fleet-old`, `Create`
calls `CreateFleet` and then `DescribeFleetAttributes`, returns nil, and the
recorded id afterwards is the new `fleet-123`. -/
theorem create_with_recorded_id_counterexample :
    ({ minimalFleet with id := "fleet-old" } : ResourceData).Id ≠ "" ∧
    (resourceAwsGameliftFleetCreate sampleDeps { minimalFleet with id := "fleet-old" }
      scriptedClient healthyRemote).outcome = .ok ∧
    (resourceAwsGameliftFleetCreate sampleDeps { minimalFleet with id := "fleet-old" }
      scriptedClient healthyRemote).d.Id = "fleet-123" ∧
    (resourceAwsGameliftFleetCreate sampleDeps { minimalFleet with id := "fleet-old" }
      scriptedClient healthyRemote).remote.calls =
      [ .createFleet
          { BuildId := some "b-1", EC2InstanceType := some "c5.large", Name := some "fleet-A" },
        .describeFleetAttributes { FleetIds := some [some "fleet-123"] },
        .describeFleetAttributes { FleetIds := some [some "fleet-123"] },
        .describeFleetAttributes { FleetIds := some [some "fleet-123"] } ] := by
  refine ⟨by decide, rfl, rfl, rfl⟩

theorem id_Set (d : ResourceData) (key : String) (v : Value) : (d.Set key v).1.id = d.id := by
  unfold ResourceData.Set
  split
  · rfl
  · split_ifs <;> rfl

theorem id_setFleetAttributes {σ : Type} (deps : Deps σ) (d : ResourceData)
    (fleet : Option FleetAttributes) : (setFleetAttributes deps d fleet).1.id = d.id := by
  unfold setFleetAttributes
  cases fleet with
  | none => rfl
  | some fleet =>
    dsimp only
    cases deps.flattenStringList fleet.LogPaths with
    | error p => simp only [id_Set]
    | ok lp =>
      dsimp only
      cases deps.flattenStringList fleet.MetricGroups with
      | error p => simp only [id_Set]
      | ok mg => simp only [id_Set]

theorem id_Read {σ : Type} (deps : Deps σ) (d : ResourceData) (client : AWSClient σ) (w : σ) :
    (resourceAwsGameliftFleetRead deps d client w).d.Id = d.Id ∨
      (resourceAwsGameliftFleetRead deps d client w).d.Id = "" := by
  unfold resourceAwsGameliftFleetRead
  dsimp only
  rcases client.gameliftconn.DescribeFleetAttributes { FleetIds := awsStringSlice [d.Id] } w
    with ⟨res, w1⟩
  cases res with
  | error e => exact Or.inl rfl
  | ok out =>
    dsimp only
    split_ifs
    · exact Or.inr rfl
    · exact Or.inl rfl
    · cases out.FleetAttributes.toList.head? with
      | none => exact Or.inl rfl
      | some fleet =>
        dsimp only
        have hid := id_setFleetAttributes deps d fleet
        rcases hres : setFleetAttributes deps d fleet with ⟨d1, r⟩
        rw [hres] at hid
        cases r <;> exact Or.inl hid

/-- C8, amended: `Create` does not look at the recorded id. Started with any
other recorded id it ends the same way and leaves the remote service in the same
state. When `CreateFleet` returns a fleet id, the resource data that `Create`
leaves does not depend on the id recorded before, and the recorded id is then
the new fleet id or empty. When the request cannot be built, when `CreateFleet`
returns an error, or when its answer carries no fleet id, the resource data, the
recorded id included, is left as it was. -/
theorem create_ignores_recorded_id {σ : Type} (deps : Deps σ) (d : ResourceData)
    (client : AWSClient σ) (w : σ) (i : String) :
    (resourceAwsGameliftFleetCreate deps (d.SetId i) client w).outcome
      = (resourceAwsGameliftFleetCreate deps d client w).outcome ∧
    (resourceAwsGameliftFleetCreate deps (d.SetId i) client w).remote
      = (resourceAwsGameliftFleetCreate deps d client w).remote ∧
    (∀ input out w1 fa f, createFleetInput deps d = .ok input →
      client.gameliftconn.CreateFleet input w = (.ok out, w1) →
      out.FleetAttributes = some fa → fa.FleetId = some f →
      (resourceAwsGameliftFleetCreate deps (d.SetId i) client w).d
          = (resourceAwsGameliftFleetCreate deps d client w).d ∧
        ((resourceAwsGameliftFleetCreate deps (d.SetId i) client w).d.Id = f ∨
          (resourceAwsGameliftFleetCreate deps (d.SetId i) client w).d.Id = "")) ∧
    (∀ p, createFleetInput deps d = .error p →
      (resourceAwsGameliftFleetCreate deps (d.SetId i) client w).d = d.SetId i ∧
        (resourceAwsGameliftFleetCreate deps d client w).d = d) ∧
    (∀ input e w1, createFleetInput deps d = .ok input →
      client.gameliftconn.CreateFleet input w = (.error e, w1) →
      (resourceAwsGameliftFleetCreate deps (d.SetId i) client w).d = d.SetId i ∧
        (resourceAwsGameliftFleetCreate deps d client w).d = d) ∧
    (∀ input out w1, createFleetInput deps d = .ok input →
      client.gameliftconn.CreateFleet input w = (.ok out, w1) →
      out.FleetAttributes.bind (fun fa => fa.FleetId) = none →
      (resourceAwsGameliftFleetCreate deps (d.SetId i) client w).d = d.SetId i ∧
        (resourceAwsGameliftFleetCreate deps d client w).d = d) := by
  refine ⟨?_, ?_, ?_, ?_, ?_, ?_⟩
  · unfold resourceAwsGameliftFleetCreate
    rw [createFleetInput_SetId]
    cases createFleetInput deps d with
    | error p => rfl
    | ok input =>
      dsimp only
      rcases client.gameliftconn.CreateFleet input w with ⟨res, w1⟩
      cases res with
      | error e => rfl
      | ok out =>
        dsimp only
        cases out.FleetAttributes.bind (fun fa => fa.FleetId) with
        | none => rfl
        | some f => simp [SetId_SetId]
  · unfold resourceAwsGameliftFleetCreate
    rw [createFleetInput_SetId]
    cases createFleetInput deps d with
    | error p => rfl
    | ok input =>
      dsimp only
      rcases client.gameliftconn.CreateFleet input w with ⟨res, w1⟩
      cases res with
      | error e => rfl
      | ok out =>
        dsimp only
        cases out.FleetAttributes.bind (fun fa => fa.FleetId) with
        | none => rfl
        | some f => simp [SetId_SetId]
  · intro input out w1 fa f hbuild hcreate hfa hf
    have hrun : ∀ j, resourceAwsGameliftFleetCreate deps (d.SetId j) client w =
        (match deps.WaitForState (createStateConf client.gameliftconn (d.SetId f)) w1 with
          | (.panic p, w2) => ⟨d.SetId f, w2, .panic p⟩
          | (.error err, w2) => ⟨d.SetId f, w2, .error err⟩
          | (.ok, w2) => resourceAwsGameliftFleetRead deps (d.SetId f) client w2) := by
      intro j
      unfold resourceAwsGameliftFleetCreate
      rw [createFleetInput_SetId]
      simp only [hbuild, hcreate, hfa, hf, Option.bind, SetId_SetId]
    have hd : resourceAwsGameliftFleetCreate deps d client w
        = resourceAwsGameliftFleetCreate deps (d.SetId d.id) client w := rfl
    refine ⟨by rw [hd, hrun i, hrun d.id], ?_⟩
    rw [hrun i]
    rcases deps.WaitForState (createStateConf client.gameliftconn (d.SetId f)) w1 with ⟨o, w2⟩
    cases o with
    | ok => exact id_Read deps (d.SetId f) client w2
    | error e => exact Or.inl rfl
    | panic p => exact Or.inl rfl
  · intro p hbuild
    unfold resourceAwsGameliftFleetCreate
    rw [createFleetInput_SetId]
    simp [hbuild]
  · intro input e w1 hbuild hcreate
    unfold resourceAwsGameliftFleetCreate
    rw [createFleetInput_SetId]
    simp [hbuild, hcreate]
  · intro input out w1 hbuild hcreate hnone
    unfold resourceAwsGameliftFleetCreate
    rw [createFleetInput_SetId]
    simp [hbuild, hcreate, hnone]

/-- Four runs of `Create` with `fleet-old` recorded beforehand: a fleet id is
returned; the request cannot be built; `CreateFleet` fails; the answer of
`CreateFleet` carries no fleet id. -/
theorem create_ignores_recorded_id_witness :
    ((resourceAwsGameliftFleetCreate sampleDeps (minimalFleet.SetId "fleet-old") scriptedClient
          healthyRemote).d
        = (resourceAwsGameliftFleetCreate sampleDeps minimalFleet scriptedClient healthyRemote).d ∧
      ((resourceAwsGameliftFleetCreate sampleDeps (minimalFleet.SetId "fleet-old") scriptedClient
          healthyRemote).d.Id = "fleet-123" ∨
        (resourceAwsGameliftFleetCreate sampleDeps (minimalFleet.SetId "fleet-old")
          scriptedClient healthyRemote).d.Id = "")) ∧
    ((resourceAwsGameliftFleetCreate sampleDeps (declaredFleetWithLimit.SetId "fleet-old")
          scriptedClient healthyRemote).d = declaredFleetWithLimit.SetId "fleet-old" ∧
      (resourceAwsGameliftFleetCreate sampleDeps declaredFleetWithLimit scriptedClient
          healthyRemote).d = declaredFleetWithLimit) ∧
    ((resourceAwsGameliftFleetCreate sampleDeps (minimalFleet.SetId "fleet-old") scriptedClient
          emptyRemote).d = minimalFleet.SetId "fleet-old" ∧
      (resourceAwsGameliftFleetCreate sampleDeps minimalFleet scriptedClient emptyRemote).d
        = minimalFleet) ∧
    ((resourceAwsGameliftFleetCreate sampleDeps (minimalFleet.SetId "fleet-old") scriptedClient
          idlessRemote).d = minimalFleet.SetId "fleet-old" ∧
      (resourceAwsGameliftFleetCreate sampleDeps minimalFleet scriptedClient idlessRemote).d
        = minimalFleet) :=
  ⟨(create_ignores_recorded_id sampleDeps minimalFleet scriptedClient healthyRemote
      "fleet-old").2.2.1
      { BuildId := some "b-1", EC2InstanceType := some "c5.large", Name := some "fleet-A" }
      { FleetAttributes := some (fleet123 "NEW") } _ (fleet123 "NEW") "fleet-123"
      rfl rfl rfl rfl,
   (create_ignores_recorded_id sampleDeps declaredFleetWithLimit scriptedClient healthyRemote
      "fleet-old").2.2.2.1 .typeAssertion rfl,
   (create_ignores_recorded_id sampleDeps minimalFleet scriptedClient emptyRemote
      "fleet-old").2.2.2.2.1
      { BuildId := some "b-1", EC2InstanceType := some "c5.large", Name := some "fleet-A" }
      _ _ rfl rfl,
   (create_ignores_recorded_id sampleDeps minimalFleet scriptedClient idlessRemote
      "fleet-old").2.2.2.2.2
      { BuildId := some "b-1", EC2InstanceType := some "c5.large", Name := some "fleet-A" }
      { FleetAttributes := none } _ rfl rfl rfl⟩

/-! ## Lemmas on the create request -/

theorem bind_eq_ok {ε α β : Type} (x : Except ε α) (f : α → Except ε β) (b : β) :
    (x >>= f) = .ok b ↔ ∃ a, x = .ok a ∧ f a = .ok b := by
  cases x with
  | error e => simp [bind, Except.bind]
  | ok a => simp [bind, Except.bind]

theorem assertString_eq_ok (v : Value) (s : String) : v.assertString = .ok s ↔ v = .str s := by
  unfold Value.assertString
  split
  · rename_i a
    cases a <;> simp [Atom.assertString, Value.str]
  · rename_i hne
    constructor
    · intro h
      cases h
    · intro h
      exact absurd h (by intro h; exact hne _ (by rw [h]; rfl))

theorem whenOk_update {α β γ : Type} (d : ResourceData) (key : String)
    (conv : Value → Except Panic β) (assign : α → β → α) (input out : α)
    (get : α → Option γ) (set : α → Option γ → α) (g : β → Option γ)
    (hassign : ∀ i x, assign i x = set i (g x)) (hid : ∀ i, set i (get i) = i)
    (h : whenOk d key conv assign input = .ok out) :
    ∃ f, out = set input f ∧
      (((d.GetOk key).2 = false ∧ f = get input) ∨
        ∃ x, (d.GetOk key).2 = true ∧ conv (d.GetOk key).1 = .ok x ∧ f = g x) := by
  unfold whenOk at h
  split at h
  · rename_i v hv
    split at h
    · rename_i x hx
      simp only [Except.ok.injEq] at h
      exact ⟨g x, by rw [← h, hassign], Or.inr ⟨x, by rw [hv], by rw [hv]; exact hx, rfl⟩⟩
    · cases h
  · rename_i v hv
    simp only [Except.ok.injEq] at h
    exact ⟨get input, by rw [← h, hid], Or.inl ⟨by rw [hv], rfl⟩⟩

/-- Every field of a create request that was built, in terms of the resource
data it was built from. -/
theorem createFleetInput_fields {σ : Type} (deps : Deps σ) (d : ResourceData)
    (input : CreateFleetInput) (h : createFleetInput deps d = .ok input) :
    (∃ s, d.Get "build_id" = .str s ∧ input.BuildId = some s) ∧
    (∃ s, d.Get "ec2_instance_type" = .str s ∧ input.EC2InstanceType = some s) ∧
    (∃ s, d.Get "name" = .str s ∧ input.Name = some s) ∧
    AssignedFrom d "description" Value.assertString some input.Description ∧
    AssignedFrom d "ec2_inbound_permissions"
      (fun v => v.assertList >>= expandGameliftIpPermissions) id input.EC2InboundPermissions ∧
    AssignedFrom d "log_paths" (fun v => v.assertList >>= deps.expandStringList) id
      input.LogPaths ∧
    AssignedFrom d "metric_groups" (fun v => v.assertList >>= deps.expandStringList) id
      input.MetricGroups ∧
    AssignedFrom d "new_game_session_protection_policy" Value.assertString some
      input.NewGameSessionProtectionPolicy ∧
    AssignedFrom d "peer_vpc_aws_account_id" Value.assertString some input.PeerVpcAwsAccountId ∧
    AssignedFrom d "peer_vpc_id" Value.assertString some input.PeerVpcId ∧
    AssignedFrom d "resource_creation_limit_policy"
      (fun v => v.assertList >>= fun cfg => pure (expandGameliftResourceCreationLimitPolicy cfg))
      id input.ResourceCreationLimitPolicy ∧
    AssignedFrom d "runtime_configuration"
      (fun v => v.assertList >>= fun cfg => pure (expandGameliftRuntimeConfiguration cfg))
      id input.RuntimeConfiguration ∧
    AssignedFrom d "server_launch_parameters" Value.assertString some
      input.ServerLaunchParameters ∧
    AssignedFrom d "server_launch_path" Value.assertString some input.ServerLaunchPath := by
  unfold createFleetInput at h
  simp only [bind_eq_ok] at h
  obtain ⟨b, hb, e, he, n, hn, i1, h1, i2, h2, i3, h3, i4, h4, i5, h5, i6, h6, i7, h7, i8, h8,
    i9, h9, i10, h10, i11, h11, hfin⟩ := h
  obtain ⟨f1, rfl, p1⟩ := whenOk_update d _ _ _ _ _ (fun i : CreateFleetInput => i.Description)
    (fun (i : CreateFleetInput) f => { i with Description := f }) some (fun _ _ => rfl) (fun _ => rfl) h1
  obtain ⟨f2, rfl, p2⟩ := whenOk_update d _ _ _ _ _ (fun i : CreateFleetInput => i.EC2InboundPermissions)
    (fun (i : CreateFleetInput) f => { i with EC2InboundPermissions := f }) id (fun _ _ => rfl) (fun _ => rfl) h2
  obtain ⟨f3, rfl, p3⟩ := whenOk_update d _ _ _ _ _ (fun i : CreateFleetInput => i.LogPaths)
    (fun (i : CreateFleetInput) f => { i with LogPaths := f }) id (fun _ _ => rfl) (fun _ => rfl) h3
  obtain ⟨f4, rfl, p4⟩ := whenOk_update d _ _ _ _ _ (fun i : CreateFleetInput => i.MetricGroups)
    (fun (i : CreateFleetInput) f => { i with MetricGroups := f }) id (fun _ _ => rfl) (fun _ => rfl) h4
  obtain ⟨f5, rfl, p5⟩ := whenOk_update d _ _ _ _ _ (fun i : CreateFleetInput => i.NewGameSessionProtectionPolicy)
    (fun (i : CreateFleetInput) f => { i with NewGameSessionProtectionPolicy := f }) some (fun _ _ => rfl)
    (fun _ => rfl) h5
  obtain ⟨f6, rfl, p6⟩ := whenOk_update d _ _ _ _ _ (fun i : CreateFleetInput => i.PeerVpcAwsAccountId)
    (fun (i : CreateFleetInput) f => { i with PeerVpcAwsAccountId := f }) some (fun _ _ => rfl) (fun _ => rfl) h6
  obtain ⟨f7, rfl, p7⟩ := whenOk_update d _ _ _ _ _ (fun i : CreateFleetInput => i.PeerVpcId)
    (fun (i : CreateFleetInput) f => { i with PeerVpcId := f }) some (fun _ _ => rfl) (fun _ => rfl) h7
  obtain ⟨f8, rfl, p8⟩ := whenOk_update d _ _ _ _ _ (fun i : CreateFleetInput => i.ResourceCreationLimitPolicy)
    (fun (i : CreateFleetInput) f => { i with ResourceCreationLimitPolicy := f }) id (fun _ _ => rfl)
    (fun _ => rfl) h8
  obtain ⟨f9, rfl, p9⟩ := whenOk_update d _ _ _ _ _ (fun i : CreateFleetInput => i.RuntimeConfiguration)
    (fun (i : CreateFleetInput) f => { i with RuntimeConfiguration := f }) id (fun _ _ => rfl) (fun _ => rfl) h9
  obtain ⟨f10, rfl, p10⟩ := whenOk_update d _ _ _ _ _ (fun i : CreateFleetInput => i.ServerLaunchParameters)
    (fun (i : CreateFleetInput) f => { i with ServerLaunchParameters := f }) some (fun _ _ => rfl) (fun _ => rfl) h10
  obtain ⟨f11, rfl, p11⟩ := whenOk_update d _ _ _ _ _ (fun i : CreateFleetInput => i.ServerLaunchPath)
    (fun (i : CreateFleetInput) f => { i with ServerLaunchPath := f }) some (fun _ _ => rfl) (fun _ => rfl) h11
  simp only [pure, Except.pure, Except.ok.injEq] at hfin
  subst hfin
  rw [assertString_eq_ok] at hb he hn
  exact ⟨⟨b, hb, rfl⟩, ⟨e, he, rfl⟩, ⟨n, hn, rfl⟩, p1, p2, p3, p4, p5, p6, p7, p8, p9, p10, p11⟩

theorem Get_hasType (d : ResourceData) (key : String) (s : Schema)
    (hs : d.schema.lookup key = some s) : (d.Get key).hasType s.type = true := by
  unfold ResourceData.Get
  rw [hs]
  dsimp only
  have hzero : s.type.Zero.hasType s.type = true := by
    cases s.type <;> rfl
  cases d.attrs.lookup key with
  | none => exact hzero
  | some v =>
    dsimp only
    by_cases hv : v.hasType s.type = true
    · rw [if_pos hv]; exact hv
    · rw [if_neg hv]; exact hzero

theorem GetOk_fst (d : ResourceData) (key : String) : (d.GetOk key).1 = d.Get key := by
  unfold ResourceData.GetOk ResourceData.Get
  cases d.schema.lookup key <;> rfl

theorem GetOk_of_omitted (d : ResourceData) (key : String) (h : d.Omitted key) :
    (d.GetOk key).2 = false := by
  unfold ResourceData.GetOk ResourceData.Get
  unfold ResourceData.Omitted at h
  cases d.schema.lookup key with
  | none => rfl
  | some s => simp [h]

theorem AssignedFrom_of_not_ok {β γ : Type} (d : ResourceData) (key : String)
    (conv : Value → Except Panic β) (g : β → Option γ) (f : Option γ)
    (h : AssignedFrom d key conv g f) (hok : (d.GetOk key).2 = false) : f = none := by
  rcases h with ⟨_, hf⟩ | ⟨x, hx, _, _⟩
  · exact hf
  · rw [hok] at hx; cases hx

theorem whenOk_of_not_ok {α β : Type} (d : ResourceData) (key : String)
    (conv : Value → Except Panic β) (assign : α → β → α) (input : α)
    (hok : (d.GetOk key).2 = false) : whenOk d key conv assign input = .ok input := by
  unfold whenOk
  split
  · rename_i v hv
    rw [hv] at hok
    cases hok
  · rfl

/-- C4: in every create request that `Create` builds, `BuildId`,
`EC2InstanceType` and `Name` are set to the configured values and the field of
every optional attribute that the operator omitted is nil, the
resource-creation-limit policy included; and when all optional attributes are
omitted the request is built and consists of the three required fields. -/
theorem create_request_leaves_omitted_unset {σ : Type} (deps : Deps σ) (d : ResourceData) :
    (∀ input, createFleetInput deps d = .ok input →
      ((∃ s, d.Get "build_id" = .str s ∧ input.BuildId = some s) ∧
        (∃ s, d.Get "ec2_instance_type" = .str s ∧ input.EC2InstanceType = some s) ∧
        (∃ s, d.Get "name" = .str s ∧ input.Name = some s)) ∧
      (d.Omitted "description" → input.Description = none) ∧
      (d.Omitted "ec2_inbound_permissions" → input.EC2InboundPermissions = none) ∧
      (d.Omitted "log_paths" → input.LogPaths = none) ∧
      (d.Omitted "metric_groups" → input.MetricGroups = none) ∧
      (d.Omitted "new_game_session_protection_policy" →
        input.NewGameSessionProtectionPolicy = none) ∧
      (d.Omitted "peer_vpc_aws_account_id" → input.PeerVpcAwsAccountId = none) ∧
      (d.Omitted "peer_vpc_id" → input.PeerVpcId = none) ∧
      (d.Omitted "resource_creation_limit_policy" → input.ResourceCreationLimitPolicy = none) ∧
      (d.Omitted "runtime_configuration" → input.RuntimeConfiguration = none) ∧
      (d.Omitted "server_launch_parameters" → input.ServerLaunchParameters = none) ∧
      (d.Omitted "server_launch_path" → input.ServerLaunchPath = none)) ∧
    (∀ b e n, d.Get "build_id" = .str b → d.Get "ec2_instance_type" = .str e →
      d.Get "name" = .str n → (∀ k ∈ optionalAttributes, d.Omitted k) →
      createFleetInput deps d
        = .ok { BuildId := some b, EC2InstanceType := some e, Name := some n }) := by
  constructor
  · intro input h
    obtain ⟨hb, he, hn, p1, p2, p3, p4, p5, p6, p7, p8, p9, p10, p11⟩ :=
      createFleetInput_fields deps d input h
    exact ⟨⟨hb, he, hn⟩,
      fun ho => AssignedFrom_of_not_ok _ _ _ _ _ p1 (GetOk_of_omitted _ _ ho),
      fun ho => AssignedFrom_of_not_ok _ _ _ _ _ p2 (GetOk_of_omitted _ _ ho),
      fun ho => AssignedFrom_of_not_ok _ _ _ _ _ p3 (GetOk_of_omitted _ _ ho),
      fun ho => AssignedFrom_of_not_ok _ _ _ _ _ p4 (GetOk_of_omitted _ _ ho),
      fun ho => AssignedFrom_of_not_ok _ _ _ _ _ p5 (GetOk_of_omitted _ _ ho),
      fun ho => AssignedFrom_of_not_ok _ _ _ _ _ p6 (GetOk_of_omitted _ _ ho),
      fun ho => AssignedFrom_of_not_ok _ _ _ _ _ p7 (GetOk_of_omitted _ _ ho),
      fun ho => AssignedFrom_of_not_ok _ _ _ _ _ p8 (GetOk_of_omitted _ _ ho),
      fun ho => AssignedFrom_of_not_ok _ _ _ _ _ p9 (GetOk_of_omitted _ _ ho),
      fun ho => AssignedFrom_of_not_ok _ _ _ _ _ p10 (GetOk_of_omitted _ _ ho),
      fun ho => AssignedFrom_of_not_ok _ _ _ _ _ p11 (GetOk_of_omitted _ _ ho)⟩
  · intro b e n hb he hn hall
    have ho : ∀ k ∈ optionalAttributes, (d.GetOk k).2 = false :=
      fun k hk => GetOk_of_omitted d k (hall k hk)
    unfold createFleetInput
    rw [hb, he, hn]
    simp only [optionalAttributes, List.mem_cons, List.mem_singleton, forall_eq_or_imp,
      forall_eq, List.not_mem_nil, false_implies, implies_true, and_true] at ho
    obtain ⟨o1, o2, o3, o4, o5, o6, o7, o8, o9, o10, o11⟩ := ho
    simp only [whenOk_of_not_ok _ _ _ _ _ o1, whenOk_of_not_ok _ _ _ _ _ o2,
      whenOk_of_not_ok _ _ _ _ _ o3, whenOk_of_not_ok _ _ _ _ _ o4,
      whenOk_of_not_ok _ _ _ _ _ o5, whenOk_of_not_ok _ _ _ _ _ o6,
      whenOk_of_not_ok _ _ _ _ _ o7, whenOk_of_not_ok _ _ _ _ _ o8,
      whenOk_of_not_ok _ _ _ _ _ o9, whenOk_of_not_ok _ _ _ _ _ o10,
      whenOk_of_not_ok _ _ _ _ _ o11]
    rfl

/-- The requests built from `fullFleet`, which omits the metric groups and the
runtime configuration, and from `minimalFleet`, which omits every optional
attribute. -/
theorem create_request_leaves_omitted_unset_witness :
    fullFleet.Omitted "metric_groups" ∧ fullFleet.Omitted "runtime_configuration" ∧
    createFleetInput sampleDeps fullFleet
      = .ok { BuildId := some "b-1", EC2InstanceType := some "c5.large", Name := some "fleet-A",
              Description := some "demo",
              LogPaths := some [some "/var/log/a", some "/var/log/b"] } ∧
    createFleetInput sampleDeps minimalFleet
      = .ok { BuildId := some "b-1", EC2InstanceType := some "c5.large", Name := some "fleet-A" } ∧
    ({ BuildId := some "b-1", EC2InstanceType := some "c5.large", Name := some "fleet-A",
       Description := some "demo",
       LogPaths := some [some "/var/log/a", some "/var/log/b"] } : CreateFleetInput).MetricGroups
      = none :=
  ⟨by decide, by decide, rfl,
   (create_request_leaves_omitted_unset sampleDeps minimalFleet).2 "b-1" "c5.large" "fleet-A"
     rfl rfl rfl (by decide),
   ((create_request_leaves_omitted_unset sampleDeps fullFleet).1 _ rfl).2.2.2.2.1 (by decide)⟩

theorem schema_Set (d : ResourceData) (key : String) (v : Value) :
    (d.Set key v).1.schema = d.schema := by
  unfold ResourceData.Set
  split
  · rfl
  · split_ifs <;> rfl

theorem Get_Set_ne (d : ResourceData) (key : String) (v : Value) (k : String) (h : k ≠ key) :
    (d.Set key v).1.Get k = d.Get k := by
  have hcons : ∀ x : Value, ({ d with attrs := (key, x) :: d.attrs } : ResourceData).Get k
      = d.Get k := by
    intro x
    have hb : (k == key) = false := by simpa using h
    unfold ResourceData.Get
    simp [List.lookup, hb]
  unfold ResourceData.Set
  split
  · rfl
  · split_ifs
    · exact hcons _
    · exact hcons _
    · rfl

theorem Get_Set_pointer (D d : ResourceData) (k : String) (p : Option String)
    (hschema : d.schema = D.schema)
    (hp : (p = none ∧ (D.GetOk k).2 = false) ∨ ∃ x, p = some x ∧ D.Get k = .str x) :
    (d.Set k (ptrValue p)).1.Get k = D.Get k := by
  rcases hp with ⟨rfl, hok⟩ | ⟨x, rfl, hx⟩
  · cases hs : D.schema.lookup k with
    | none =>
      have hget : D.Get k = .nil := by
        unfold ResourceData.Get
        rw [hs]
      rw [hget]
      unfold ResourceData.Set ResourceData.Get
      simp [hschema, hs]
    | some s =>
      unfold ResourceData.GetOk at hok
      rw [hs] at hok
      simp only [ne_eq, decide_not, Bool.not_eq_false', decide_eq_true_eq] at hok
      have hz : s.type.Zero.hasType s.type = true := by cases s.type <;> rfl
      rw [hok]
      unfold ResourceData.Set ResourceData.Get
      simp [ptrValue, hschema, hs, hz]
  · cases hs : D.schema.lookup k with
    | none =>
      unfold ResourceData.Get at hx
      rw [hs] at hx
      cases hx
    | some s =>
      have ht := Get_hasType D k s hs
      rw [hx] at ht
      have hty : s.type = .TypeString := by
        cases hty : s.type <;> rw [hty] at ht <;> first | rfl | cases ht
      rw [hx]
      unfold ResourceData.Set ResourceData.Get
      simp [hschema, hs, ptrValue, Value.str, Value.nil, Value.hasType, hty]

theorem pointer_of_assigned (D : ResourceData) (k : String) (p : Option String)
    (h : AssignedFrom D k Value.assertString some p) :
    (p = none ∧ (D.GetOk k).2 = false) ∨ ∃ x, p = some x ∧ D.Get k = .str x := by
  rcases h with ⟨hok, hp⟩ | ⟨x, _, hx, hp⟩
  · exact Or.inl ⟨hp, hok⟩
  · rw [GetOk_fst, assertString_eq_ok] at hx
    exact Or.inr ⟨x, hp, hx⟩

theorem setFleetAttributes_done {σ : Type} (deps : Deps σ) (d L : ResourceData)
    (fleet : FleetAttributes) (h : setFleetAttributes deps d (some fleet) = (L, none)) :
    ∃ lp mg, L =
      (((((((((((d.Set "build_id" (ptrValue fleet.BuildId)).1.Set "description"
        (ptrValue fleet.Description)).1.Set "fleet_arn" (ptrValue fleet.FleetArn)).1.Set
        "log_paths" (.list lp)).1.Set "metric_groups" (.list mg)).1.Set "name"
        (ptrValue fleet.Name)).1.Set "new_game_session_protection_policy"
        (ptrValue fleet.NewGameSessionProtectionPolicy)).1.Set "operating_system"
        (ptrValue fleet.OperatingSystem)).1.Set "resource_creation_limit_policy"
        (.list (flattenGameliftResourceCreationLimitPolicy
          fleet.ResourceCreationLimitPolicy))).1.Set "server_launch_parameters"
        (ptrValue fleet.ServerLaunchParameters)).1.Set "server_launch_path"
        (ptrValue fleet.ServerLaunchPath)).1 := by
  unfold setFleetAttributes at h
  dsimp only at h
  cases hlp : deps.flattenStringList fleet.LogPaths with
  | error p => rw [hlp] at h; simp at h
  | ok lp =>
    rw [hlp] at h
    dsimp only at h
    cases hmg : deps.flattenStringList fleet.MetricGroups with
    | error p => rw [hmg] at h; simp at h
    | ok mg =>
      rw [hmg] at h
      simp only [Prod.mk.injEq, and_true] at h
      exact ⟨lp, mg, h.symm⟩

/-- C3: the round trip loses a configured resource-creation-limit block. The
desired state `fullFleet` configures one block, and after the round trip (run on
`fullFleet` itself, as in `Create`) the attribute holds the empty list, because
the translators of the block are unfinished (`TODO`) and return nil and the
empty list. Under the schema the resource declares, where the attribute is a
string, a configured value makes the construction of the request panic on the
assertion `v.([]interface{})`, so that no local state is reached. -/
theorem round_trip_loses_limit_block :
    "resource_creation_limit_policy" ∈ settableAttributes ∧
    fullFleet.Get "resource_creation_limit_policy" = .list [sampleLimitBlock] ∧
    (roundTrip sampleDeps fullFleet fullFleet).map
      (fun L => L.Get "resource_creation_limit_policy") = .ok (.list []) ∧
    declaredFleetWithLimit.Get "resource_creation_limit_policy" = .str "3 per 15" ∧
    (roundTrip sampleDeps declaredFleetWithLimit declaredFleetWithLimit).map
      (fun L => L.Get "resource_creation_limit_policy") = .error .typeAssertion ∧
    (∀ cfg, expandGameliftResourceCreationLimitPolicy cfg = none) ∧
    (∀ policy, flattenGameliftResourceCreationLimitPolicy policy = []) :=
  ⟨by decide, rfl, rfl, rfl, rfl, fun _ => rfl, fun _ => rfl⟩

/-- The part of the round trip that does not go through the unfinished
translators: whenever the round trip of a desired state `D` completes, the local
state has the value `D` gave for each string attribute that `Read` maps back,
and the attributes that `Read` does not map keep the value the local state had
before. -/
theorem round_trip_mapped_attributes {σ : Type} (deps : Deps σ) (D base L : ResourceData)
    (hschema : base.schema = D.schema) (h : roundTrip deps D base = .ok L) :
    (∀ k ∈ mappedStringAttributes, L.Get k = D.Get k) ∧
    (∀ k ∈ unmappedAttributes, L.Get k = base.Get k) := by
  unfold roundTrip at h
  rw [bind_eq_ok] at h
  obtain ⟨input, hbuild, hset⟩ := h
  obtain ⟨⟨b, hb, hB⟩, _, ⟨n, hn, hN⟩, p1, _, _, _, p5, _, _, _, _, p10, p11⟩ :=
    createFleetInput_fields deps D input hbuild
  have hdone : setFleetAttributes deps base (some (echoFleetAttributes input)) = (L, none) := by
    rcases hres : setFleetAttributes deps base (some (echoFleetAttributes input)) with ⟨L1, r⟩
    rw [hres] at hset
    cases r with
    | none =>
      simp only [pure, Except.pure, Except.ok.injEq] at hset
      rw [hset]
    | some p => cases hset
  obtain ⟨lp, mg, hL⟩ :=
    setFleetAttributes_done deps base L (echoFleetAttributes input) hdone
  clear hdone hset
  rw [hL]
  clear hL
  refine ⟨?_, ?_⟩
  · intro k hk
    simp only [mappedStringAttributes, List.mem_cons, List.mem_singleton, List.not_mem_nil,
      or_false] at hk
    rcases hk with rfl | rfl | rfl | rfl | rfl | rfl
    · simp (disch := decide) only [Get_Set_ne]
      exact Get_Set_pointer D _ _ _ hschema (Or.inr ⟨b, hB, hb⟩)
    · simp (disch := decide) only [Get_Set_ne]
      exact Get_Set_pointer D _ _ _ (by simp only [schema_Set, hschema])
        (Or.inr ⟨n, hN, hn⟩)
    · simp (disch := decide) only [Get_Set_ne]
      exact Get_Set_pointer D _ _ _ (by simp only [schema_Set, hschema])
        (pointer_of_assigned D _ _ p1)
    · simp (disch := decide) only [Get_Set_ne]
      exact Get_Set_pointer D _ _ _ (by simp only [schema_Set, hschema])
        (pointer_of_assigned D _ _ p5)
    · simp (disch := decide) only [Get_Set_ne]
      exact Get_Set_pointer D _ _ _ (by simp only [schema_Set, hschema])
        (pointer_of_assigned D _ _ p10)
    · exact Get_Set_pointer D _ _ _ (by simp only [schema_Set, hschema])
        (pointer_of_assigned D _ _ p11)
  · intro k hk
    simp only [unmappedAttributes, List.mem_cons, List.mem_singleton, List.not_mem_nil,
      or_false] at hk
    rcases hk with rfl | rfl | rfl | rfl | rfl <;> simp (disch := decide) only [Get_Set_ne]

/-- The round trip of `minimalFleet`, under the schema the resource declares,
run on `minimalFleet` itself. -/
theorem round_trip_of_minimalFleet :
    ∃ L, roundTrip sampleDeps minimalFleet minimalFleet = .ok L ∧
      L.Get "name" = minimalFleet.Get "name" ∧
      L.Get "ec2_instance_type" = minimalFleet.Get "ec2_instance_type" :=
  ⟨_, rfl,
   (round_trip_mapped_attributes sampleDeps minimalFleet minimalFleet _ rfl rfl).1 "name"
     (by decide),
   (round_trip_mapped_attributes sampleDeps minimalFleet minimalFleet _ rfl rfl).2
     "ec2_instance_type" (by decide)⟩

/-! ## The update request -/

theorem assertString_error (v : Value) (p : Panic) (h : v.assertString = .error p) :
    p = .typeAssertion := by
  unfold Value.assertString at h
  split at h
  · rename_i a
    cases a <;> simp [Atom.assertString] at h <;> exact h.symm
  · cases h
    rfl

theorem updateFleetAttributesInput_declared {σ : Type} (deps : Deps σ) (id : String)
    (attrs : List (String × Value)) :
    updateFleetAttributesInput deps ⟨resourceAwsGameliftFleet, id, attrs⟩
      = .error .typeAssertion := by
  unfold updateFleetAttributesInput
  cases hd : (ResourceData.Get ⟨resourceAwsGameliftFleet, id, attrs⟩ "description").assertString
    with
  | error p =>
    rw [assertString_error _ _ hd]
    rfl
  | ok s =>
    have hid : ResourceData.Get ⟨resourceAwsGameliftFleet, id, attrs⟩ "fleet_id" = .nil := rfl
    rw [hid]
    rfl

/-- Every field of an update request that was built, whatever the schema: the
`FleetId` is the value of the attribute `fleet_id`, not the recorded id, and the
resource-creation-limit policy is nil. -/
theorem updateFleetAttributesInput_fields {σ : Type} (deps : Deps σ) (d : ResourceData)
    (input : UpdateFleetAttributesInput) (h : updateFleetAttributesInput deps d = .ok input) :
    (∃ s, d.Get "fleet_id" = .str s ∧ input.FleetId = some s) ∧
    (∃ s, d.Get "description" = .str s ∧ input.Description = some s) ∧
    (∃ s, d.Get "name" = .str s ∧ input.Name = some s) ∧
    (∃ s, d.Get "new_game_session_protection_policy" = .str s ∧
      input.NewGameSessionProtectionPolicy = some s) ∧
    (∃ xs, d.Get "metric_groups" = .list xs ∧ deps.expandStringList xs = .ok input.MetricGroups) ∧
    input.ResourceCreationLimitPolicy = none := by
  unfold updateFleetAttributesInput at h
  simp only [bind_eq_ok, pure, Except.pure, Except.ok.injEq] at h
  obtain ⟨ds, hds, fs, hfs, mg, ⟨xs, hxs, hmg⟩, ns, hns, ps, hps, cfg, _, hin⟩ := h
  rw [assertString_eq_ok] at hds hfs hns hps
  have hxs1 : d.Get "metric_groups" = .list xs := by
    cases hv : d.Get "metric_groups" with
    | item i => rw [hv] at hxs; cases hxs
    | list ys => rw [hv] at hxs; cases hxs; rfl
  subst hin
  exact ⟨⟨fs, hfs, rfl⟩, ⟨ds, hds, rfl⟩, ⟨ns, hns, rfl⟩, ⟨ps, hps, rfl⟩, ⟨xs, hxs1, hmg⟩, rfl⟩

/-- C6: under the schema the resource declares, `Update` never reaches the
remote service: the request takes its `FleetId` from the attribute `fleet_id`,
which the schema does not declare, instead of the recorded id, so the type
assertion on it panics before `UpdateFleetAttributes` is called; and the
translator of the resource-creation-limit block returns nil for every
configured block, so the block is never part of a request. The same run on the
recorded id `fleet-123` against the scripted remote service records no call. -/
theorem update_never_sends_request :
    (∀ (σ : Type) (deps : Deps σ) (id : String) (attrs : List (String × Value))
        (client : AWSClient σ) (w : σ),
      (resourceAwsGameliftFleetUpdate deps ⟨resourceAwsGameliftFleet, id, attrs⟩ client w).outcome
          = .panic .typeAssertion ∧
        (resourceAwsGameliftFleetUpdate deps ⟨resourceAwsGameliftFleet, id, attrs⟩ client w).remote
          = w) ∧
    (∀ cfg, expandGameliftResourceCreationLimitPolicy cfg = none) ∧
    (resourceAwsGameliftFleetUpdate sampleDeps { minimalFleet with id := "fleet-123" }
      scriptedClient healthyRemote).remote.calls = [] ∧
    (resourceAwsGameliftFleetUpdate sampleDeps { fullFleet with id := "fleet-123" }
      scriptedClient healthyRemote).outcome = .panic .typeAssertion := by
  refine ⟨?_, fun _ => rfl, rfl, rfl⟩
  intro σ deps id attrs client w
  unfold resourceAwsGameliftFleetUpdate
  rw [updateFleetAttributesInput_declared]
  exact ⟨rfl, rfl⟩

/-! ## Inbound permissions -/

theorem expandIpPermission_rule (m : List (String × Atom)) (fp tp : Int) (ip pr : String)
    (hfp : mapIndex m "from_port" = .int fp) (hip : mapIndex m "ip_range" = .str ip)
    (hpr : mapIndex m "protocol" = .str pr) (htp : mapIndex m "to_port" = .int tp) :
    expandIpPermission (.map m)
      = .ok (some { FromPort := some fp, IpRange := some ip, Protocol := some pr,
                    ToPort := some tp }) := by
  simp [expandIpPermission, Item.assertMap, bind, Except.bind, pure, Except.pure, hfp, hip, hpr,
    htp, Atom.assertInt, Atom.assertString, awsInt64, awsString]

theorem flattenIpPermission_full (fp tp : Int) (ip pr : String) :
    flattenIpPermission
        (some { FromPort := some fp, IpRange := some ip, Protocol := some pr, ToPort := some tp })
      = .ok (.map [("from_port", .int64 fp), ("ip_range", .str ip), ("protocol", .str pr),
          ("to_port", .int64 tp)]) := by
  unfold flattenIpPermission
  simp [mapAssign, bind, Except.bind, pure, Except.pure]

theorem mapM_rules (cfgs : List Item)
    (hrules : ∀ c ∈ cfgs, ∃ m fp ip pr tp, c = Item.map m ∧
      mapIndex m "from_port" = .int fp ∧ mapIndex m "ip_range" = .str ip ∧
      mapIndex m "protocol" = .str pr ∧ mapIndex m "to_port" = .int tp) :
    ∃ perms out, cfgs.mapM expandIpPermission = .ok perms ∧
      perms.mapM flattenIpPermission = .ok out ∧ out.length = cfgs.length ∧
      ∀ (i : Nat) (m : List (String × Atom)) (fp : Int) (ip pr : String) (tp : Int),
        cfgs[i]? = some (Item.map m) →
        mapIndex m "from_port" = .int fp → mapIndex m "ip_range" = .str ip →
        mapIndex m "protocol" = .str pr → mapIndex m "to_port" = .int tp →
        out[i]? = some (Item.map [("from_port", .int64 fp), ("ip_range", .str ip),
          ("protocol", .str pr), ("to_port", .int64 tp)]) := by
  induction cfgs with
  | nil =>
    refine ⟨[], [], rfl, rfl, rfl, ?_⟩
    intro i m fp ip pr tp h
    simp at h
  | cons c rest ih =>
    obtain ⟨perms, out, hperms, hout, hlen, hidx⟩ :=
      ih (fun c hc => hrules c (List.mem_cons_of_mem _ hc))
    obtain ⟨m, fp, ip, pr, tp, rfl, hfp, hip, hpr, htp⟩ := hrules c (List.mem_cons_self _ _)
    refine ⟨some ⟨some fp, some ip, some pr, some tp⟩ :: perms,
      Item.map [("from_port", .int64 fp), ("ip_range", .str ip), ("protocol", .str pr),
        ("to_port", .int64 tp)] :: out, ?_, ?_, ?_, ?_⟩
    · rw [List.mapM_cons, expandIpPermission_rule m fp tp ip pr hfp hip hpr htp, hperms]
      rfl
    · rw [List.mapM_cons, flattenIpPermission_full, hout]
      rfl
    · simp [hlen]
    · intro i m1 fp1 ip1 pr1 tp1 hget hfp1 hip1 hpr1 htp1
      cases i with
      | zero =>
        simp only [List.getElem?_cons_zero, Option.some.injEq, Item.map.injEq] at hget
        subst hget
        rw [hfp] at hfp1
        rw [hip] at hip1
        rw [hpr] at hpr1
        rw [htp] at htp1
        cases hfp1
        cases hip1
        cases hpr1
        cases htp1
        exact List.getElem?_cons_zero
      | succ j =>
        simp only [List.getElem?_cons_succ] at hget ⊢
        exact hidx j m1 fp1 ip1 pr1 tp1 hget hfp1 hip1 hpr1 htp1

/-- C10: for every list of inbound-permission rule maps (each with integer
`from_port` and `to_port` and string `ip_range` and `protocol`),
`expandGameliftIpPermissions` followed by `flattenGameliftIpPermissions` runs
without a panic and returns a list of the same length whose i-th element is the
map with exactly the keys `from_port`, `ip_range`, `protocol` and `to_port`,
holding the values of the i-th rule, the ports as 64-bit integers. -/
theorem flatten_expand_ip_permissions (cfgs : List Item)
    (hrules : ∀ c ∈ cfgs, ∃ m fp ip pr tp, c = Item.map m ∧
      mapIndex m "from_port" = .int fp ∧ mapIndex m "ip_range" = .str ip ∧
      mapIndex m "protocol" = .str pr ∧ mapIndex m "to_port" = .int tp) :
    ∃ perms out, expandGameliftIpPermissions cfgs = .ok perms ∧
      perms.len = cfgs.length ∧
      flattenGameliftIpPermissions perms = .ok out ∧ out.length = cfgs.length ∧
      ∀ (i : Nat) (m : List (String × Atom)) (fp : Int) (ip pr : String) (tp : Int),
        cfgs[i]? = some (Item.map m) →
        mapIndex m "from_port" = .int fp → mapIndex m "ip_range" = .str ip →
        mapIndex m "protocol" = .str pr → mapIndex m "to_port" = .int tp →
        out[i]? = some (Item.map [("from_port", .int64 fp), ("ip_range", .str ip),
          ("protocol", .str pr), ("to_port", .int64 tp)]) := by
  obtain ⟨perms, out, hperms, hout, hlen, hidx⟩ := mapM_rules cfgs hrules
  have hplen : perms.length = cfgs.length := by
    have hfl : ∀ (ps : List (Option IpPermission)) (os : List Item),
        ps.mapM flattenIpPermission = .ok os → os.length = ps.length := by
      intro ps
      induction ps with
      | nil =>
        intro os h
        cases h
        rfl
      | cons q qs ihq =>
        intro os h
        rw [List.mapM_cons] at h
        cases hq : flattenIpPermission q with
        | error e => rw [hq] at h; cases h
        | ok o =>
          cases hqs : qs.mapM flattenIpPermission with
          | error e => rw [hq, hqs] at h; cases h
          | ok os1 =>
            rw [hq, hqs] at h
            cases h
            simp [ihq os1 hqs]
    rw [← hfl perms out hout, hlen]
  unfold expandGameliftIpPermissions flattenGameliftIpPermissions
  by_cases hlt : cfgs.length < 1
  · have hnil : cfgs = [] := by
      cases cfgs with
      | nil => rfl
      | cons c rest => simp at hlt
    subst hnil
    refine ⟨some [], [], by simp, rfl, rfl, rfl, ?_⟩
    intro i m fp ip pr tp h
    simp at h
  · refine ⟨some perms, out, ?_, ?_, ?_, hlen, hidx⟩
    · rw [if_neg hlt, hperms]
      rfl
    · simpa [Slice.len, Slice.toList] using hplen
    · simpa [Slice.toList] using hout

/-- The two rules of `sampleRules`, expanded and flattened again. -/
theorem flatten_expand_ip_permissions_witness :
    ∃ perms out, expandGameliftIpPermissions sampleRules = .ok perms ∧
      perms.len = sampleRules.length ∧
      flattenGameliftIpPermissions perms = .ok out ∧ out.length = sampleRules.length ∧
      ∀ (i : Nat) (m : List (String × Atom)) (fp : Int) (ip pr : String) (tp : Int),
        sampleRules[i]? = some (Item.map m) →
        mapIndex m "from_port" = .int fp → mapIndex m "ip_range" = .str ip →
        mapIndex m "protocol" = .str pr → mapIndex m "to_port" = .int tp →
        out[i]? = some (Item.map [("from_port", .int64 fp), ("ip_range", .str ip),
          ("protocol", .str pr), ("to_port", .int64 tp)]) :=
  flatten_expand_ip_permissions sampleRules (by
    intro c hc
    simp only [sampleRules, List.mem_cons, List.mem_singleton, List.not_mem_nil, or_false] at hc
    rcases hc with rfl | rfl
    · exact ⟨_, 8080, "10.0.0.0/8", "TCP", 8090, rfl, rfl, rfl, rfl, rfl⟩
    · exact ⟨_, 53, "0.0.0.0/0", "UDP", 53, rfl, rfl, rfl, rfl, rfl⟩)

end GameliftFleet
